import Mathlib

/-!
Verification of the `terraform-provider-circonus` translation layer.

This file shallowly embeds the provider's translation functions
(`ParseConfig` / `*Read` / `*ToState` / `Validate`) for the check, graph and
rule-set resources, and proves or refutes the specification's claims about
them.  Attribute bags (the values Terraform hands the provider after schema
processing) are modelled as explicit structures; the vendor API objects are
modelled as structures mirroring the `go-apiclient` types; fallible code
returns `Except`.  Machine integers in the source (`uint`, `int`) are modelled
as `Nat`/`Int`; durations are whole seconds (`Nat`).
-/

namespace Circonus

/-! ### Decimal strings

The Go source formats integers with `fmt.Sprintf("%d", ·)` and parses them with
`strconv.Atoi` / `strconv.ParseInt`/`ParseUint`.  We model decimal formatting
and parsing directly on `List Char` / `String`.
-/

/-- The decimal digit character for `n < 10`. -/
def digitChar (n : Nat) : Char :=
  match n with
  | 0 => '0' | 1 => '1' | 2 => '2' | 3 => '3' | 4 => '4'
  | 5 => '5' | 6 => '6' | 7 => '7' | 8 => '8' | _ => '9'

/-- Fuelled digit expansion (structural recursion keeps it kernel-reducible). -/
def natCharsAux : Nat → Nat → List Char
  | 0, _ => []
  | fuel + 1, n =>
    if n < 10 then [digitChar n]
    else natCharsAux fuel (n / 10) ++ [digitChar (n % 10)]

/-- Decimal representation of a natural number, most significant digit first. -/
def natChars (n : Nat) : List Char := natCharsAux (n + 1) n

/-- `fmt.Sprintf("%d", n)` for a natural number. -/
def natString (n : Nat) : String := ⟨natChars n⟩

/-- Numeric value of a digit character. -/
def charVal (c : Char) : Nat := c.toNat - 48

/-- Value of a digit string, most significant digit first. -/
def digitsToNat (l : List Char) : Nat := l.foldl (fun a c => a * 10 + charVal c) 0

/-! ### Durations

`time.ParseDuration` and `time.Duration.String` from the Go standard library
are external; the provider only ever round-trips whole-second durations
(`"90s"`, `"1m30s"`, …), so we model them on the integral `h`/`m`/`s`
fragment of the grammar: a duration string is a non-empty sequence of
`<digits><unit>` components whose values (in seconds) are summed.
-/

/-- One parsing step: digits, then a unit.  Returns seconds and the rest. -/
def parseDurComponent (l : List Char) : Option (Nat × List Char) :=
  let ds := l.takeWhile Char.isDigit
  let r₁ := l.dropWhile Char.isDigit
  if ds = [] then none
  else
    let us := r₁.takeWhile Char.isAlpha
    let r₂ := r₁.dropWhile Char.isAlpha
    match us with
    | ['s'] => some (digitsToNat ds, r₂)
    | ['m'] => some (60 * digitsToNat ds, r₂)
    | ['h'] => some (3600 * digitsToNat ds, r₂)
    | _ => none

/-- Fuelled loop over duration components. -/
def parseDurAux : Nat → List Char → Option Nat
  | 0, _ => none
  | fuel + 1, l =>
    match parseDurComponent l with
    | none => none
    | some (n, []) => some n
    | some (n, r) =>
      match parseDurAux fuel r with
      | none => none
      | some m => some (n + m)

/-- Modelled from the Go standard library: `time.ParseDuration`, restricted to
whole-second durations written with `h`/`m`/`s` units; returns seconds. -/
def parseDuration (s : String) : Option Nat :=
  parseDurAux s.data.length s.data

/-- Modelled from the Go standard library: `time.Duration.String` for a whole
number of seconds (`0s`, `45s`, `1m30s`, `2h0m5s`, …). -/
def goDurString (n : Nat) : String :=
  if n = 0 then "0s"
  else if n < 60 then natString n ++ "s"
  else if n < 3600 then natString (n / 60) ++ "m" ++ natString (n % 60) ++ "s"
  else natString (n / 3600) ++ "h" ++ natString (n % 3600 / 60) ++ "m" ++ natString (n % 60) ++ "s"

/-- `strconv.Atoi` / `strconv.ParseUint` restricted to unsigned decimals. -/
def parseNatStr (s : String) : Option Nat :=
  if s.data ≠ [] ∧ s.data.all Char.isDigit then some (digitsToNat s.data) else none

/-- `fmt.Sprintf("%d", i)` for a Go `int`. -/
def intString (i : Int) : String :=
  if i < 0 then "-" ++ natString i.natAbs else natString i.natAbs

/-- `strconv.ParseInt(s, 10, 64)` restricted to decimal notation. -/
def parseIntStr (s : String) : Option Int :=
  match s.data with
  | '-' :: rest => (parseNatStr ⟨rest⟩).map (fun n => -(n : Int))
  | _ => (parseNatStr s).map (fun n => (n : Int))

/-! ### The check resource (`check.go`, `resource_circonus_check.go`)

`circonusCheck` wraps `api.CheckBundle`; the wrapper is collapsed into one
structure holding the `CheckBundle` fields the provider reads or writes.  The
free-form `Config` map (`map[config.Key]string`) is modelled as an association
list preserving insertion order.  Go's `Type` field is `CheckType` (`Type` is
reserved in Lean); `Timeout` (`float32` seconds in Go) is modelled as whole
seconds.
-/

/-- `api.CheckBundleMetric` (vendor client type, used field-wise). -/
structure CheckBundleMetric where
  Name : String
  MetricType : String
  Status : String
deriving Repr, DecidableEq

/-- `circonusCheck` / `api.CheckBundle`. -/
structure circonusCheck where
  Status : String
  Brokers : List String
  MetricLimit : Int
  DisplayName : String
  Notes : Option String
  Period : Nat
  Metrics : List CheckBundleMetric
  MetricFilters : List (List String)
  Tags : List String
  Target : String
  Timeout : Nat
  CheckType : String
  Config : List (String × String)
deriving Repr, DecidableEq

/-- The distinct errors the check paths can produce (each constructor is one
`fmt.Errorf` site; the formatted message payloads are carried as fields). -/
inductive CheckError where
  | metricsAndMetricFilters
  | noMetricsOrMetricFilters
  | timeoutExceedsPeriod (timeout period : Nat)
  | cloudwatchPeriod
  | consulMissingURL
  | unableToParseDuration (attr s : String)
  | httpConfigsEmpty
  | unableToParseType (t : String) (e : CheckError)
  | unableToParseCheckType (e : CheckError)
  | checkTypeNotSupported (t : String)
  | unableToParseAPIConfig (t : String) (e : CheckError)
  | providerBugConfigNotEmpty
deriving Repr, DecidableEq

/-- Equality of embedded results is decidable (used to evaluate the concrete
examples inside proofs). -/
def exceptDecEq {ε α : Type} [DecidableEq ε] [DecidableEq α] :
    DecidableEq (Except ε α) := fun a b =>
  match a, b with
  | .error e₁, .error e₂ =>
    if h : e₁ = e₂ then .isTrue (by rw [h]) else .isFalse (by simp [h])
  | .error _, .ok _ => .isFalse (by simp)
  | .ok _, .error _ => .isFalse (by simp)
  | .ok x, .ok y =>
    if h : x = y then .isTrue (by rw [h]) else .isFalse (by simp [h])

instance {ε α : Type} [DecidableEq ε] [DecidableEq α] : DecidableEq (Except ε α) :=
  exceptDecEq

/-- `checkAPIStatusToBool` (`check.go`): unknown statuses are logged as a
provider bug and `active` keeps its zero value `false`. -/
def checkAPIStatusToBool (s : String) : Bool :=
  if s = "active" then true
  else if s = "disabled" then false
  else false

/-- `checkActiveToAPIStatus` (`check.go`). -/
def checkActiveToAPIStatus (active : Bool) : String :=
  if active then "active" else "disabled"

/-- `newCheck` wraps `api.NewCheckBundle()`.  The vendor client's constructor
is excluded external code; per the spec every entity is "created empty
(zero-value wrapper around a freshly constructed vendor API object)", so the
bundle starts out zero-valued. -/
def newCheck : circonusCheck :=
  { Status := "", Brokers := [], MetricLimit := 0, DisplayName := "",
    Notes := none, Period := 0, Metrics := [], MetricFilters := [], Tags := [],
    Target := "", Timeout := 0, CheckType := "", Config := [] }

/-- Update (or insert) a key in the `Config` association list, mirroring a Go
map assignment. -/
def configSet (cfg : List (String × String)) (k v : String) : List (String × String) :=
  if (cfg.lookup k).isSome then
    cfg.map (fun p => if p.1 = k then (k, v) else p)
  else cfg ++ [(k, v)]

/-- `circonusCheck.Fixup` (`check.go`). -/
def circonusCheck.Fixup (c : circonusCheck) : circonusCheck :=
  if c.CheckType = "cloudwatch" then
    if c.Period = 60 then { c with Config := configSet c.Config "granularity" "1" }
    else if c.Period = 300 then { c with Config := configSet c.Config "granularity" "5" }
    else c
  else c

/-- `circonusCheck.Validate` (`check.go` lines 118-145). -/
def circonusCheck.Validate (c : circonusCheck) : Except CheckError Unit :=
  if c.Metrics.length > 0 ∧ c.MetricFilters.length > 0 then
    .error .metricsAndMetricFilters
  else if c.Metrics.length = 0 ∧ c.MetricFilters.length = 0 then
    .error .noMetricsOrMetricFilters
  else if c.Timeout > c.Period then
    .error (.timeoutExceedsPeriod c.Timeout c.Period)
  else if c.CheckType = "cloudwatch" then
    if ¬ (c.Period = 60 ∨ c.Period = 300) then .error .cloudwatchPeriod else .ok ()
  else if c.CheckType = "consul" then
    match c.Config.lookup "url" with
    | none => .error .consulMissingURL
    | some v => if v = "" then .error .consulMissingURL else .ok ()
  else .ok ()

/-! ### Check attribute bags

The bags model what the Terraform SDK hands the provider after schema
processing.  Two access patterns in the source behave differently:

* `d.GetOk(attr)` (top-level attributes) reports `found = false` when the
  value is the type's zero value (``""``, `0`, `false`, empty collection);
  the embedding therefore guards each top-level assignment with a
  zero-value test.
* indexing the map of a list/set element (`mapAttrs[key]`) always finds the
  key, because the SDK materialises every schema attribute of the element
  (with its zero value when unset); those assignments are unconditional.

The bag covers the `http` check sub-block (`resource_circonus_check_http.go`);
the other 19 sub-blocks follow the same shape and are not needed by the
claims.
-/

/-- One `metric` block of a check. -/
structure checkMetricAttrs where
  active : Bool
  name : String
  metricType : String
deriving Repr, DecidableEq

/-- One `metric_filter` block of a check. -/
structure checkMetricFilterAttrs where
  filterType : String
  regex : String
  comment : String
  tagQuery : String
deriving Repr, DecidableEq

/-- The `http` sub-block of a check (`schemaCheckHTTP`). -/
structure checkHTTPAttrs where
  authMethod : String
  authPassword : String
  authUser : String
  bodyRegexp : String
  caChain : String
  certFile : String
  ciphers : String
  code : String
  extract : String
  headers : List (String × String)
  keyFile : String
  method : String
  payload : String
  readLimit : Int
  url : String
  version : String
  redirects : String
deriving Repr, DecidableEq

/-- The global attributes of a `circonus_check` resource plus its `http`
sub-block. -/
structure checkAttrs where
  active : Bool
  collector : List String
  metricLimit : Int
  name : String
  notes : String
  period : String
  metric : List checkMetricAttrs
  metricFilter : List checkMetricFilterAttrs
  tags : List String
  target : String
  timeout : String
  http : checkHTTPAttrs
deriving Repr, DecidableEq

/-- Modelled from the spec: `metric.ParseConfigMap` lives in
`resource_circonus_metric.go`, which is not under `src/`.  Per the spec a
metric is "a named measurement stream within a check; has a name, type
(numeric/text/histogram/…), active flag", and metric status is the API-side
encoding of the active flag. -/
def metricParseConfigMap (m : checkMetricAttrs) : CheckBundleMetric :=
  { Name := m.name, MetricType := m.metricType,
    Status := if m.active then "active" else "available" }

/-- Modelled from the spec: `metricAPIStatusToBool` (in the missing
`resource_circonus_metric.go`) maps the API metric status back to the
`active` flag, inverse of `metricParseConfigMap`. -/
def metricAPIStatusToBool (s : String) : Bool := s = "active"

/-- The API config key for one HTTP header: `config.HeaderPrefix + k`. -/
def headerKey (k : String) : String := "header_" ++ k

/-- Modelled from the Go standard library: the `Host` component of
`url.Parse(s)` — the text between `"://"` and the next `/`; empty when the
URL has no scheme-separated authority. -/
def urlHost (s : String) : String :=
  match hfind : findAuthority s.data with
  | none => ""
  | some rest => ⟨rest.takeWhile (fun c => c ≠ '/')⟩
where
  findAuthority : List Char → Option (List Char)
    | [] => none
    | ':' :: '/' :: '/' :: rest => some rest
    | _ :: rest => findAuthority rest

/-- `strings.SplitN(host, ":", 2)[0]`. -/
def hostName (host : String) : String := ⟨host.data.takeWhile (fun c => c ≠ ':')⟩

/-- `strings.SplitN(host, ":", 2)[1]` (everything after the first `:`). -/
def hostPortPart (host : String) : String := ⟨(host.data.dropWhile (fun c => c ≠ ':')).tail⟩

/-- `checkConfigToAPIHTTP` (`resource_circonus_check_http.go` lines 309-411).
Only the first element of the `http` set is used; the SDK materialises every
schema key of that element, so each map lookup succeeds and every value
(possibly a zero value) is written into `Config`. -/
def checkConfigToAPIHTTP (c : circonusCheck) (l : List checkHTTPAttrs) :
    Except CheckError circonusCheck :=
  let c := { c with CheckType := "http" }
  match l with
  | [] => .error .httpConfigsEmpty
  | h :: _ =>
    let c := { c with Config := c.Config ++
      [("auth_method", h.authMethod), ("auth_password", h.authPassword),
       ("auth_user", h.authUser), ("body", h.bodyRegexp), ("ca_chain", h.caChain),
       ("certificate_file", h.certFile), ("ciphers", h.ciphers), ("code", h.code),
       ("extract", h.extract)]
      ++ h.headers.map (fun (kv : String × String) => (headerKey kv.1, kv.2))
      ++ [("key_file", h.keyFile), ("method", h.method), ("payload", h.payload),
          ("read_limit", intString h.readLimit), ("url", h.url)] }
    let host := urlHost h.url
    let c := if c.Target.length = 0 then { c with Target := hostName host } else c
    let c := if host.data.contains ':' ∧ (c.Config.lookup "port").getD "" = "" then
        { c with Config := c.Config ++ [("port", hostPortPart host)] }
      else c
    let c := { c with Config := c.Config ++
      [("http_version", h.version), ("redirects", h.redirects)] }
    .ok c

/-- `checkConfigToAPI` (`check.go` lines 901-943), restricted to the `http`
sub-block: the bag models an HTTP check, so of the 20 per-type parsers only
`checkConfigToAPIHTTP` fires. -/
def checkConfigToAPI (c : circonusCheck) (a : checkAttrs) : Except CheckError circonusCheck :=
  match checkConfigToAPIHTTP c [a.http] with
  | .error e => .error (.unableToParseType "http" e)
  | .ok c => .ok c

/-- `circonusCheck.ParseConfig` (`check.go` lines 770-897). -/
def circonusCheck.ParseConfig (a : checkAttrs) : Except CheckError circonusCheck := do
  let c := newCheck
  let c := if a.active then { c with Status := checkActiveToAPIStatus a.active } else c
  let c := if a.collector ≠ [] then { c with Brokers := a.collector } else c
  let c := if a.metricLimit ≠ 0 then { c with MetricLimit := a.metricLimit } else c
  let c := if a.name ≠ "" then { c with DisplayName := a.name } else c
  let c := if a.notes ≠ "" then { c with Notes := some a.notes } else c
  let c ← if a.period ≠ "" then
      match parseDuration a.period with
      | none => Except.error (.unableToParseDuration "period" a.period)
      | some n => pure { c with Period := n }
    else pure c
  let c := if a.metric ≠ [] then { c with Metrics := a.metric.map metricParseConfigMap }
    else { c with Metrics := [] }
  let c := if a.metricFilter ≠ [] then
      { c with MetricFilters := a.metricFilter.map (fun f =>
          [f.filterType, f.regex] ++ ["tags", f.tagQuery] ++ [f.comment]) }
    else c
  let c := if a.tags ≠ [] then { c with Tags := a.tags } else c
  let c := if a.target ≠ "" then { c with Target := a.target } else c
  let c ← if a.timeout ≠ "" then
      match parseDuration a.timeout with
      | none => Except.error (.unableToParseDuration "timeout" a.timeout)
      | some n => pure { c with Timeout := n }
    else pure c
  let c ← match checkConfigToAPI c a with
    | .error e => Except.error (.unableToParseCheckType e)
    | .ok c => pure c
  let c := c.Fixup
  match c.Validate with
  | .error e => Except.error e
  | .ok _ => pure c

/-- The sixteen config keys `checkAPIToStateHTTP` extracts with
`saveStringConfigToState`/`saveIntConfigToState` (their `go-apiclient`
`config.*` constants). -/
def httpKnownConfigKeys : List String :=
  ["auth_method", "auth_password", "auth_user", "body", "ca_chain",
   "certificate_file", "ciphers", "code", "extract", "key_file", "method",
   "payload", "read_limit", "url", "http_version", "redirects"]

/-- `whitelistedConfigKeys` (`resource_circonus_check_http.go` lines
231-234): `config.ReverseSecretKey` and `config.SubmissionURL`. -/
def httpWhitelistedConfigKeys : List String := ["reverse:secret_key", "submission_url"]

/-- A fetched HTTP bundle whose config carries an unknown key longer than
the header prefix. -/
def mysteryKeyBundle : circonusCheck :=
  { newCheck with
      CheckType := "http",
      Config := [("url", "http://example.com/"), ("mystery_long_key", "v")] }

/-- `checkAPIToStateHTTP` (`resource_circonus_check_http.go` lines 167-251).
The `swamp` sanity map starts as a copy of `Config`; each
`saveStringConfigToState`/`saveIntConfigToState` call deletes its key whether
or not it was present, and the header loop deletes **every** key longer than
`config.HeaderPrefix` (the `delete` sits outside the prefix comparison). -/
def checkAPIToStateHTTP (c : circonusCheck) : Except CheckError checkHTTPAttrs :=
  let headerPrefixLen := ("header_" : String).data.length
  let swamp := (c.Config.map Prod.fst).filter
    (fun k => ¬ httpKnownConfigKeys.contains k ∧ ¬ k.data.length > headerPrefixLen)
  if swamp.all (fun k => httpWhitelistedConfigKeys.contains k) then
    .ok
      { authMethod := (c.Config.lookup "auth_method").getD ""
        authPassword := (c.Config.lookup "auth_password").getD ""
        authUser := (c.Config.lookup "auth_user").getD ""
        bodyRegexp := (c.Config.lookup "body").getD ""
        caChain := (c.Config.lookup "ca_chain").getD ""
        certFile := (c.Config.lookup "certificate_file").getD ""
        ciphers := (c.Config.lookup "ciphers").getD ""
        code := (c.Config.lookup "code").getD ""
        extract := (c.Config.lookup "extract").getD ""
        headers := c.Config.filterMap (fun kv =>
          if kv.1.data.length > headerPrefixLen
              ∧ kv.1.data.take headerPrefixLen = ("header_" : String).data
          then some (⟨kv.1.data.drop headerPrefixLen⟩, kv.2) else none)
        keyFile := (c.Config.lookup "key_file").getD ""
        method := (c.Config.lookup "method").getD ""
        payload := (c.Config.lookup "payload").getD ""
        readLimit :=
          match c.Config.lookup "read_limit" with
          | none => 0
          | some v => (parseIntStr v).getD 0
        url := (c.Config.lookup "url").getD ""
        version := (c.Config.lookup "http_version").getD ""
        redirects := (c.Config.lookup "redirects").getD "" }
  else .error .providerBugConfigNotEmpty

/-- `parseCheckTypeConfig` (`check.go` lines 947-982), restricted to the
`http` handler (the other 19 handlers are not needed by the claims; an
unmodelled type maps to the handler-table miss, which in the source is the
"check type %q not supported" error). -/
def parseCheckTypeConfig (c : circonusCheck) : Except CheckError checkHTTPAttrs :=
  if c.CheckType = "http" then
    match checkAPIToStateHTTP c with
    | .error e => .error (.unableToParseAPIConfig c.CheckType e)
    | .ok h => .ok h
  else .error (.checkTypeNotSupported c.CheckType)

/-- `checkRead` (`check.go` lines 577-739), restricted to the bundle-to-state
mapping: given the fetched bundle, the attributes written back into the
statefile.  The timeout is written as
`time.ParseDuration(fmt.Sprintf("%fs", c.Timeout)).String()`, which for whole
seconds is `goDurString`; the period as `fmt.Sprintf("%ds", c.Period)`. -/
def checkRead (c : circonusCheck) : Except CheckError checkAttrs :=
  match parseCheckTypeConfig c with
  | .error e => .error e
  | .ok h =>
    .ok
      { active := checkAPIStatusToBool c.Status
        collector := c.Brokers
        metricLimit := c.MetricLimit
        name := c.DisplayName
        notes := c.Notes.getD ""
        period := natString c.Period ++ "s"
        metric := c.Metrics.map (fun m =>
          { active := metricAPIStatusToBool m.Status, name := m.Name,
            metricType := m.MetricType })
        metricFilter := c.MetricFilters.map (fun m =>
          if m.getD 2 "" = "tags" then
            { filterType := m.getD 0 "", regex := m.getD 1 "",
              tagQuery := m.getD 3 "", comment := m.getD 4 "" }
          else
            { filterType := m.getD 0 "", regex := m.getD 1 "",
              tagQuery := "", comment := m.getD 2 "" })
        tags := c.Tags
        target := c.Target
        timeout := goDurString c.Timeout
        http := h }

/-- A well-formed `http` sub-block used by the concrete examples. -/
def exampleHTTP : checkHTTPAttrs :=
  { authMethod := "Basic", authPassword := "p", authUser := "u",
    bodyRegexp := ".+", caChain := "", certFile := "", ciphers := "",
    code := "200", extract := "", headers := [("X-Request-Id", "42")],
    keyFile := "", method := "GET", payload := "", readLimit := 0,
    url := "http://example.com/path", version := "1.1", redirects := "3" }

/-- The spec's example check with `period="60s"`, `timeout="90s"`. -/
def exampleCheck60_90 : checkAttrs :=
  { active := true, collector := ["/broker/1"], metricLimit := 0, name := "c",
    notes := "", period := "60s", metric := [],
    metricFilter := [{ filterType := "allow", regex := ".*", comment := "", tagQuery := "" }],
    tags := [], target := "example.com", timeout := "90s", http := exampleHTTP }

/-- The same check with `timeout="30s"`. -/
def exampleCheck60_30 : checkAttrs :=
  { exampleCheck60_90 with timeout := "30s" }

/-- The valid example check, changed only to carry a port in its URL.
Every validation rule still passes, but `checkConfigToAPIHTTP` copies the
port into the `port` config key (`resource_circonus_check_http.go` lines
396-398), which `checkAPIToStateHTTP` never consumes: at 4 characters the
key survives the header loop's length cut-off and triggers the
PROVIDER BUG leftover-key error (lines 236-243). -/
def portedCheck : checkAttrs :=
  { exampleCheck60_30 with
      http := { exampleHTTP with url := "http://example.com:8080/path" } }

/-! ### CRUD delete glue (C8)

`checkDelete` (`check.go` lines 756-766) and `graphDelete`
(`resource_circonus_graph.go` lines 620-631) call the external vendor client
and then manipulate the Terraform resource ID.  The client call is modelled as
a parameter carrying its result; the embedding returns the resource ID after
the operation and the fatal diagnostic, if any.
-/

/-- `checkDelete`: on a client error the function returns the error before
reaching `d.SetId("")`; on success the ID is cleared. -/
def checkDelete (clientResult : Except String Bool) (id : String) :
    String × Option String :=
  match clientResult with
  | .error e => (id, some e)
  | .ok _ => ("", none)

/-- `graphDelete`: same shape as `checkDelete`. -/
def graphDelete (clientResult : Except String Bool) (id : String) :
    String × Option String :=
  match clientResult with
  | .error e => (id, some e)
  | .ok _ => ("", none)

/-! ### The graph resource (`resource_circonus_graph.go`)

`circonusGraph` wraps `api.Graph`; the claims concern the datapoint and
metric-cluster handling, so the embedding models those parts: the per-element
loops of `circonusGraph.ParseConfig` and `graphRead`, and
`circonusGraph.Validate`.  As with the check bags, indexing a list element's
attribute map always finds the key (the SDK materialises every schema
attribute of the element with its zero value when unset).
-/

/-- `api.GraphDatapoint.Derive` is `interface{}` holding JSON `false`/`null` or
a string. -/
inductive DeriveVal where
  | nilVal
  | boolVal (b : Bool)
  | strVal (s : String)
deriving Repr, DecidableEq

/-- `api.GraphDatapoint` (vendor client type; `*string`/`*uint` fields are
`Option`). -/
structure GraphDatapoint where
  Alpha : Option String
  Axis : String
  CAQL : Option String
  CheckID : Nat
  Color : Option String
  DataFormula : Option String
  Derive : DeriveVal
  Hidden : Bool
  LegendFormula : Option String
  MetricName : String
  MetricType : String
  Name : String
  Search : Option String
  Stack : Option Nat
deriving Repr, DecidableEq

/-- `api.GraphMetricCluster` (vendor client type). -/
structure GraphMetricCluster where
  AggregateFunc : String
  Axis : String
  Color : Option String
  DataFormula : Option String
  Hidden : Bool
  LegendFormula : Option String
  MetricCluster : String
  Name : String
  Stack : Option Nat
deriving Repr, DecidableEq

/-- The graph resource (datapoints and metric clusters of `api.Graph`). -/
structure circonusGraph where
  Datapoints : List GraphDatapoint
  MetricClusters : List GraphMetricCluster
deriving Repr, DecidableEq

/-- The distinct errors of the modelled graph paths (one constructor per
`fmt.Errorf` site, carrying the formatted payloads). -/
inductive GraphError where
  | unsupportedAxisAttr (val : String)
  | unsupportedAxisType (val : String)
  | unsupportedDeriveType
  | locatorRequiresCheck (i : Nat) (name : String)
  | locatorRequiresName (i : Nat) (name : String)
  | locatorConflict (i : Nat) (name : String)
  | validateCheckRequiresName (i : Nat) (name : String)
  | validateNameRequiresCheck (i : Nat) (name : String)
  | validateTextDerive (i : Nat) (name : String)
  | validateClusterColorRequired (i : Nat) (name : String)
deriving Repr, DecidableEq

/-- The axis switch of `circonusGraph.ParseConfig` (state word to API
letter), identical at the datapoint (lines 757-766) and metric-cluster
(lines 924-933) sites. -/
def axisStateToAPI (s : String) : Except GraphError String :=
  if s = "left" ∨ s = "" then .ok "l"
  else if s = "right" then .ok "r"
  else .error (.unsupportedAxisAttr s)

/-- The axis switch of `graphRead` (API letter to state word), identical at
the datapoint (lines 418-425) and metric-cluster (lines 488-495) sites. -/
def axisAPIToState (s : String) : Except GraphError String :=
  if s = "l" ∨ s = "" then .ok "left"
  else if s = "r" then .ok "right"
  else .error (.unsupportedAxisType s)

/-- Whitespace test for `strings.TrimSpace` (ASCII whitespace). -/
def isSpaceChar (c : Char) : Bool :=
  c = ' ' ∨ c = '\t' ∨ c = '\n' ∨ c = '\r'

/-- Modelled from the Go standard library: `strings.TrimSpace` (ASCII). -/
def trimSpace (s : String) : String :=
  ⟨((s.data.dropWhile isSpaceChar).reverse.dropWhile isSpaceChar).reverse⟩

/-- Modelled from the vendor client: `config.CheckCIDRegex` is
`^(/check/)?([0-9]+)$` and `FindStringSubmatch` yields its two groups on a
match; returns the check ID, `none` when the regex does not match (the
caller then leaves `check` at `0`). -/
def parseCheckCID (s : String) : Option Nat :=
  let l := s.data
  let digits := if l.take 7 = ("/check/" : String).data then l.drop 7 else l
  if digits ≠ [] ∧ digits.all Char.isDigit then some (digitsToNat digits) else none

/-- One `metric` (datapoint) block of a graph. -/
structure graphMetricAttrs where
  active : Bool
  alpha : String
  axis : String
  caql : String
  search : String
  check : String
  color : String
  formula : String
  legendFormula : String
  function : String
  metricType : String
  name : String
  metricName : String
  stack : String
deriving Repr, DecidableEq

/-- One `metric_cluster` block of a graph (its schema has exactly these six
attributes). -/
structure graphMetricClusterAttrs where
  active : Bool
  aggregate : String
  axis : String
  color : String
  query : String
  name : String
deriving Repr, DecidableEq

/-- One iteration of the datapoint loop of `circonusGraph.ParseConfig`
(`resource_circonus_graph.go` lines 737-905), including the metric-locator
enforcement. -/
def parseGraphDatapoint (metricIdx : Nat) (m : graphMetricAttrs) :
    Except GraphError GraphDatapoint := do
  let hidden := ! m.active
  let alpha := if m.alpha = "" then "0" else m.alpha
  let axis ← axisStateToAPI m.axis
  let color := some m.color
  let dataFormula := if m.formula ≠ "" then some m.formula else none
  let derive := if m.function ≠ "" then DeriveVal.strVal m.function
    else DeriveVal.boolVal false
  let legendFormula := if m.legendFormula ≠ "" then some m.legendFormula else none
  let metricType := m.metricType
  let name := if m.name ≠ "" then trimSpace m.name else ""
  let stack := if m.stack ≠ "" then some ((parseNatStr m.stack).getD 0) else none
  let locName := trimSpace m.metricName
  let check := (parseCheckCID m.check).getD 0
  let caql := trimSpace m.caql
  let search := trimSpace m.search
  if check = 0 ∧ locName ≠ "" then
    .error (.locatorRequiresCheck metricIdx name)
  else if check > 0 ∧ locName = "" then
    .error (.locatorRequiresName metricIdx name)
  else if check > 0 ∧ (caql ≠ "" ∨ search ≠ "") then
    .error (.locatorConflict metricIdx name)
  else if caql ≠ "" ∧ (check ≠ 0 ∨ locName ≠ "" ∨ search ≠ "") then
    .error (.locatorConflict metricIdx name)
  else if search ≠ "" ∧ (check ≠ 0 ∨ locName ≠ "" ∨ caql ≠ "") then
    .error (.locatorConflict metricIdx name)
  else
    let zero : GraphDatapoint :=
      { Alpha := some alpha, Axis := axis, CAQL := none, CheckID := 0,
        Color := color, DataFormula := dataFormula, Derive := derive,
        Hidden := hidden, LegendFormula := legendFormula, MetricName := "",
        MetricType := metricType, Name := name, Search := none, Stack := stack }
    if check > 0 then
      .ok { zero with CheckID := check, MetricName := locName }
    else if caql ≠ "" then
      .ok { zero with CAQL := some caql }
    else if search ≠ "" then
      .ok { zero with Search := some search }
    else
      .ok zero

/-- One iteration of the datapoint loop of `graphRead` (lines 407-476):
the state attributes written for a fetched datapoint (attributes the source
leaves unset come back as the schema zero value). -/
def readGraphDatapoint (dp : GraphDatapoint) : Except GraphError graphMetricAttrs := do
  let axis ← axisAPIToState dp.Axis
  let function ←
    match dp.Derive with
    | .boolVal _ => Except.ok ""
    | .strVal u => Except.ok u
    | .nilVal => Except.error GraphError.unsupportedDeriveType
  .ok
    { active := ! dp.Hidden
      alpha :=
        match dp.Alpha with
        | some a => if a ≠ "0" then a else ""
        | none => ""
      axis := axis
      caql :=
        match dp.CAQL with
        | some c => if c ≠ "" then c else ""
        | none => ""
      search :=
        match dp.Search with
        | some c => if c ≠ "" then c else ""
        | none => ""
      check := if dp.CheckID ≠ 0 then "/check/" ++ natString dp.CheckID else ""
      color := dp.Color.getD ""
      formula := dp.DataFormula.getD ""
      legendFormula := dp.LegendFormula.getD ""
      function := function
      metricType := dp.MetricType
      name := dp.Name
      metricName := dp.MetricName
      stack :=
        match dp.Stack with
        | some u => natString u
        | none => "" }

/-- One iteration of the metric-cluster loop of `circonusGraph.ParseConfig`
(lines 911-1002).  The `formula`, `legend_formula` and `stack` keys the loop
also probes are not metric-cluster schema attributes, so those lookups never
find a value and the corresponding fields stay `nil`. -/
def parseGraphMetricCluster (mc : graphMetricClusterAttrs) :
    Except GraphError GraphMetricCluster := do
  let axis ← axisStateToAPI mc.axis
  .ok
    { AggregateFunc := mc.aggregate
      Axis := axis
      Color := if mc.color ≠ "" then some mc.color else none
      DataFormula := none
      Hidden := ! mc.active
      LegendFormula := none
      MetricCluster := mc.query
      Name := mc.name
      Stack := none }

/-- One iteration of the metric-cluster loop of `graphRead` (lines 479-522),
restricted to the cluster schema attributes (the source also writes
`formula`/`legend_formula`/`stack` keys that have no metric-cluster schema
counterpart). -/
def readGraphMetricCluster (mc : GraphMetricCluster) :
    Except GraphError graphMetricClusterAttrs := do
  let axis ← axisAPIToState mc.Axis
  .ok
    { active := ! mc.Hidden
      aggregate := mc.AggregateFunc
      axis := axis
      color := mc.Color.getD ""
      query := mc.MetricCluster
      name := mc.Name }

/-- The datapoint loop of `circonusGraph.Validate` (lines 1097-1126). -/
def graphValidateDatapoints : Nat → List GraphDatapoint → Except GraphError Unit
  | _, [] => .ok ()
  | i, dp :: rest =>
    if dp.CheckID ≠ 0 ∧ dp.MetricName = "" then
      .error (.validateCheckRequiresName i dp.Name)
    else if dp.CheckID = 0 ∧ dp.MetricName ≠ "" then
      .error (.validateNameRequiresCheck i dp.Name)
    else if dp.MetricType = "text" ∧
        (match dp.Derive with | .strVal _ => true | _ => false) = true then
      .error (.validateTextDerive i dp.Name)
    else graphValidateDatapoints (i + 1) rest

/-- The metric-cluster loop of `circonusGraph.Validate` (lines 1128-1132). -/
def graphValidateClusters : Nat → List GraphMetricCluster → Except GraphError Unit
  | _, [] => .ok ()
  | i, mc :: rest =>
    if mc.AggregateFunc ≠ "" ∧ (mc.Color = none ∨ mc.Color = some "") then
      .error (.validateClusterColorRequired i mc.Name)
    else graphValidateClusters (i + 1) rest

/-- `circonusGraph.Validate` (lines 1096-1135). -/
def circonusGraph.Validate (g : circonusGraph) : Except GraphError Unit := do
  graphValidateDatapoints 0 g.Datapoints
  graphValidateClusters 0 g.MetricClusters

/-- The number of metric locators a datapoint block supplies, after the same
trimming/regex extraction `circonusGraph.ParseConfig` performs: a paired
check-ID + metric name, a CAQL query, or a search expression. -/
def numLocators (m : graphMetricAttrs) : Nat :=
  (if (parseCheckCID m.check).getD 0 > 0 ∧ trimSpace m.metricName ≠ "" then 1 else 0)
  + (if trimSpace m.caql ≠ "" then 1 else 0)
  + (if trimSpace m.search ≠ "" then 1 else 0)

/-- A datapoint block supplying no locator at all (valid axis and type,
`check`/`metric_name`/`caql`/`search` all unset). -/
def noLocatorMetric : graphMetricAttrs :=
  { active := true, alpha := "", axis := "left", caql := "", search := "",
    check := "", color := "#ff0000", formula := "", legendFormula := "",
    function := "", metricType := "numeric", name := "cpu", metricName := "",
    stack := "" }

/-- The datapoint `parseGraphDatapoint` produces for `noLocatorMetric`. -/
def noLocatorDatapoint : GraphDatapoint :=
  { Alpha := some "0", Axis := "l", CAQL := none, CheckID := 0,
    Color := some "#ff0000", DataFormula := none,
    Derive := DeriveVal.boolVal false, Hidden := false, LegendFormula := none,
    MetricName := "", MetricType := "numeric", Name := "cpu", Search := none,
    Stack := none }

/-! ### The rule-set resource (`src/unnamed/part_002`)

`circonusRuleSet` wraps `api.RuleSet`.  The rule list is rebuilt from the
`if` blocks by `circonusRuleSet.ParseConfig`; `circonusRuleSet.Validate`
checks the result before any write.  The `metric_type` constants
(`ruleSetMetricTypeNumeric`/`ruleSetMetricTypeText`) are declared outside
`src/`.
-/

/-- `api.RuleSetRule.Value` is `interface{}`: a string for comparison
criteria, a float (whole seconds here) for the absent criteria, or unset. -/
inductive RuleValue where
  | unset
  | str (s : String)
  | num (n : Nat)
deriving Repr, DecidableEq

/-- `api.RuleSetRule` (vendor client type; fields the provider uses). -/
structure RuleSetRule where
  Criteria : String
  Value : RuleValue
  Wait : Nat
  Severity : Nat
  WindowingDuration : Nat
  WindowingMinDuration : Nat
  WindowingFunction : Option String
deriving Repr, DecidableEq

/-- `circonusRuleSet` / `api.RuleSet`.  `ContactGroups`
(`map[uint8][]string`) is an association list from severity to contact-group
CIDs. -/
structure circonusRuleSet where
  CID : String
  CheckCID : String
  Name : String
  Link : Option String
  MetricType : String
  Notes : Option String
  UserJSON : String
  Parent : Option String
  MetricName : String
  MetricPattern : String
  Filter : String
  ContactGroups : List (Nat × List String)
  Rules : List RuleSetRule
deriving Repr, DecidableEq

/-- The distinct errors of the rule-set paths (one constructor per
`fmt.Errorf` site; the `ruleSetValueList[0]` index on an empty list is a
run-time panic in the source, modelled as its own error). -/
inductive RuleSetError where
  | unableToParseAfter (s : String)
  | unableToParseLast (s : String)
  | unableToParseAtLeast (s : String)
  | unsupportedMetricType (t : String)
  | panicEmptyValueList
  | bothMetricNameAndPattern (cid : String)
  | neitherMetricNameNorPattern (cid : String)
  | emptyCriteria (i : Nat) (cid : String)
  | windowMinExceedsDuration (i : Nat) (cid : String)
  | textCriteriaOnNumericType (i : Nat) (cid criteria : String)
  | numericCriteriaOnTextType (i : Nat) (cid criteria : String)
deriving Repr, DecidableEq

/-- The API criteria constants (`part_002` lines 64-76). -/
def apiRuleSetAbsent : String := "on absence"

def apiRuleSetChanged : String := "on change"

def apiRuleSetContains : String := "contains"

def apiRuleSetMatch : String := "match"

def apiRuleSetMaxValue : String := "max value"

def apiRuleSetMinValue : String := "min value"

def apiRuleSetNotContains : String := "does not contain"

def apiRuleSetNotMatch : String := "does not match"

def apiRuleSetEqValue : String := "equals"

def apiRuleSetNotEqValue : String := "does not equal"

/-- Modelled from the spec: `ruleSetMetricTypeNumeric` is declared outside
`src/`; `circonusRuleSet.Validate` (in `src/`) compares `MetricType` against
the literal `"numeric"`, and the schema default is the numeric type. -/
def ruleSetMetricTypeNumeric : String := "numeric"

/-- Modelled from the spec: `ruleSetMetricTypeText` is declared outside
`src/`; `circonusRuleSet.Validate` compares against the literal `"text"`. -/
def ruleSetMetricTypeText : String := "text"

/-- `newRuleSet` (`part_002` lines 620-633): a zero-valued
`api.NewRuleSet()` wrapper with `ContactGroups` pre-populated for severities
`1..config.NumSeverityLevels` (the vendor client declares 5 levels). -/
def newRuleSet : circonusRuleSet :=
  { CID := "", CheckCID := "", Name := "", Link := none, MetricType := "",
    Notes := none, UserJSON := "", Parent := none, MetricName := "",
    MetricPattern := "", Filter := "",
    ContactGroups := [(1, []), (2, []), (3, []), (4, []), (5, [])],
    Rules := [] }

/-- `stringInSlice` (`part_002` lines 909-916). -/
def stringInSlice (a : String) (l : List String) : Bool :=
  match l with
  | [] => false
  | b :: rest => if b = a then true else stringInSlice a rest

/-- One `if.value.over` block. -/
structure ruleSetOverAttrs where
  last : String
  atleast : String
  usingFunc : String
deriving Repr, DecidableEq

/-- One `if.value` block (the SDK materialises every key, so every
attribute is present, `""` when unset). -/
structure ruleSetValueAttrs where
  absent : String
  changed : String
  contains : String
  matchVal : String
  notMatch : String
  minValue : String
  maxValue : String
  eqValue : String
  neqValue : String
  notContain : String
  over : List ruleSetOverAttrs
deriving Repr, DecidableEq

/-- One `if.then` block. -/
structure ruleSetThenAttrs where
  after : String
  notify : List String
  severity : Nat
deriving Repr, DecidableEq

/-- One `if` block. -/
structure ruleSetIfAttrs where
  thenList : List ruleSetThenAttrs
  value : List ruleSetValueAttrs
deriving Repr, DecidableEq

/-- The rule-set attribute bag. -/
structure ruleSetAttrs where
  check : String
  name : String
  link : String
  metricType : String
  notes : String
  userJSON : String
  parent : String
  metricName : String
  metricPattern : String
  metricFilter : String
  ifRules : List ruleSetIfAttrs
deriving Repr, DecidableEq

/-- The notify loop of `circonusRuleSet.ParseConfig` (lines 726-744): a
contact-group CID is appended to the severity's list unless already present
(a missing severity key is created, as a Go map append would). -/
def contactGroupsAdd (cgs : List (Nat × List String)) (sev : Nat) (cid : String) :
    List (Nat × List String) :=
  let existing := (cgs.lookup sev).getD []
  if existing.contains cid then cgs
  else if (cgs.lookup sev).isSome then
    cgs.map (fun p => if p.1 = sev then (p.1, p.2 ++ [cid]) else p)
  else cgs ++ [(sev, [cid])]

/-- One `then` block (lines 706-745): `Wait` is
`uint(time.ParseDuration(after + "s").Minutes())`, i.e. whole minutes by
truncation; then `Severity`; then the notify loop at that severity. -/
def parseRuleThen (acc : RuleSetRule × List (Nat × List String))
    (t : ruleSetThenAttrs) :
    Except RuleSetError (RuleSetRule × List (Nat × List String)) := do
  let (rule, cgs) := acc
  let rule ← if t.after ≠ "" then
      match parseDuration (t.after ++ "s") with
      | none => Except.error (.unableToParseAfter t.after)
      | some secs => pure { rule with Wait := secs / 60 }
    else pure rule
  let rule := { rule with Severity := t.severity }
  let cgs := t.notify.foldl (fun cgs cid => contactGroupsAdd cgs rule.Severity cid) cgs
  .ok (rule, cgs)

/-- The criteria/value selection (lines 753-832): under the rule set's
metric type only that type's attributes are consulted, first non-empty one
wins; a `changed` value other than `"true"` stops the chain without setting
a criteria. -/
def parseRuleValue (metricType : String) (v : ruleSetValueAttrs)
    (rule : RuleSetRule) : Except RuleSetError RuleSetRule :=
  if metricType = ruleSetMetricTypeNumeric then
    .ok (if v.absent ≠ "" then
        { rule with
            Criteria := apiRuleSetAbsent,
            Value := .num ((parseDuration (v.absent ++ "s")).getD 0) }
      else if v.changed ≠ "" then
        (if v.changed = "true" then { rule with Criteria := apiRuleSetChanged } else rule)
      else if v.minValue ≠ "" then
        { rule with Criteria := apiRuleSetMinValue, Value := .str v.minValue }
      else if v.maxValue ≠ "" then
        { rule with Criteria := apiRuleSetMaxValue, Value := .str v.maxValue }
      else if v.eqValue ≠ "" then
        { rule with Criteria := apiRuleSetEqValue, Value := .str v.eqValue }
      else if v.neqValue ≠ "" then
        { rule with Criteria := apiRuleSetNotEqValue, Value := .str v.neqValue }
      else rule)
  else if metricType = ruleSetMetricTypeText then
    .ok (if v.absent ≠ "" then
        { rule with
            Criteria := apiRuleSetAbsent,
            Value := .num ((parseDuration (v.absent ++ "s")).getD 0) }
      else if v.changed ≠ "" then
        (if v.changed = "true" then { rule with Criteria := apiRuleSetChanged } else rule)
      else if v.contains ≠ "" then
        { rule with Criteria := apiRuleSetContains, Value := .str v.contains }
      else if v.matchVal ≠ "" then
        { rule with Criteria := apiRuleSetMatch, Value := .str v.matchVal }
      else if v.notMatch ≠ "" then
        { rule with Criteria := apiRuleSetNotMatch, Value := .str v.notMatch }
      else if v.notContain ≠ "" then
        { rule with Criteria := apiRuleSetNotContains, Value := .str v.notContain }
      else rule)
  else .error (.unsupportedMetricType metricType)

/-- One `over` block (lines 836-869). -/
def parseRuleOverElem (rule : RuleSetRule) (o : ruleSetOverAttrs) :
    Except RuleSetError RuleSetRule := do
  let windowDuration ← if o.last ≠ "" then
      match parseNatStr o.last with
      | none => Except.error (.unableToParseLast o.last)
      | some i => pure i
    else pure 0
  let windowMinDuration ← if o.atleast ≠ "" then
      match parseNatStr o.atleast with
      | none => Except.error (.unableToParseAtLeast o.atleast)
      | some i => pure i
    else pure 0
  let windowFunction := o.usingFunc
  if windowFunction ≠ "" ∧ windowDuration > 0 then
    .ok { rule with
      WindowingFunction := some windowFunction,
      WindowingDuration := windowDuration,
      WindowingMinDuration :=
        if windowMinDuration > 0 then windowMinDuration
        else rule.WindowingMinDuration }
  else .ok rule

/-- The windowing loop (lines 834-870). -/
def parseRuleOver (v : ruleSetValueAttrs) (rule : RuleSetRule) :
    Except RuleSetError RuleSetRule :=
  v.over.foldlM parseRuleOverElem rule

/-- One `if` block of `circonusRuleSet.ParseConfig` (lines 696-875): the
`then` blocks, then the `value` block (whose criteria selection may leave
the criteria empty), then the windowing block; the rule is appended only
when a criteria was set. -/
def parseRuleSetRule (rs : circonusRuleSet) (ifAttrs : ruleSetIfAttrs) :
    Except RuleSetError circonusRuleSet := do
  let rule : RuleSetRule :=
    { Criteria := "", Value := .unset, Wait := 0, Severity := 0,
      WindowingDuration := 0, WindowingMinDuration := 0, WindowingFunction := none }
  let (rule, cgs) ← ifAttrs.thenList.foldlM parseRuleThen (rule, rs.ContactGroups)
  match ifAttrs.value with
  | [] => .error .panicEmptyValueList
  | v :: _ => do
    let rule ← parseRuleValue rs.MetricType v rule
    let rule ← parseRuleOver v rule
    let rs := { rs with ContactGroups := cgs }
    if rule.Criteria ≠ "" then
      .ok { rs with Rules := rs.Rules ++ [rule] }
    else
      .ok rs

/-- The rule loop of `circonusRuleSet.Validate` (lines 934-953). -/
def validateRules (cid mt : String) : Nat → List RuleSetRule → Except RuleSetError Unit
  | _, [] => .ok ()
  | i, rule :: rest =>
    if rule.Criteria = "" then .error (.emptyCriteria i cid)
    else if rule.WindowingMinDuration > rule.WindowingDuration then
      .error (.windowMinExceedsDuration i cid)
    else if stringInSlice rule.Criteria
        [apiRuleSetMatch, apiRuleSetNotMatch, apiRuleSetContains, apiRuleSetNotContains]
        = true ∧ mt ≠ "text" then
      .error (.textCriteriaOnNumericType i cid rule.Criteria)
    else if stringInSlice rule.Criteria
        [apiRuleSetMaxValue, apiRuleSetMinValue, apiRuleSetEqValue, apiRuleSetNotEqValue]
        = true ∧ mt ≠ "numeric" then
      .error (.numericCriteriaOnTextType i cid rule.Criteria)
    else validateRules cid mt (i + 1) rest

/-- `circonusRuleSet.Validate` (lines 918-956). -/
def circonusRuleSet.Validate (rs : circonusRuleSet) : Except RuleSetError Unit :=
  if rs.MetricName.length > 0 ∧ rs.MetricPattern.length > 0 then
    .error (.bothMetricNameAndPattern rs.CheckCID)
  else if rs.MetricName.length = 0 ∧ rs.MetricPattern.length = 0 then
    .error (.neitherMetricNameNorPattern rs.CheckCID)
  else validateRules rs.CheckCID rs.MetricType 0 rs.Rules

/-- `circonusRuleSet.ParseConfig` (lines 649-887). -/
def circonusRuleSet.ParseConfig (a : ruleSetAttrs) :
    Except RuleSetError circonusRuleSet := do
  let rs := newRuleSet
  let rs := if a.check ≠ "" then { rs with CheckCID := a.check } else rs
  let rs := if a.name ≠ "" then { rs with Name := a.name } else rs
  let rs := if a.link ≠ "" then { rs with Link := some a.link } else rs
  let rs := if a.metricType ≠ "" then { rs with MetricType := a.metricType } else rs
  let rs := if a.notes ≠ "" then { rs with Notes := some a.notes } else rs
  let rs := if a.userJSON ≠ "" then { rs with UserJSON := a.userJSON } else rs
  let rs := if a.parent ≠ "" then { rs with Parent := some a.parent } else rs
  let rs := if a.metricName ≠ "" then { rs with MetricName := a.metricName } else rs
  let rs := if a.metricPattern ≠ "" then { rs with MetricPattern := a.metricPattern } else rs
  let rs := if a.metricFilter ≠ "" then { rs with Filter := a.metricFilter } else rs
  let rs := { rs with Rules := [] }
  let rs ← a.ifRules.foldlM parseRuleSetRule rs
  match rs.Validate with
  | .error e => Except.error e
  | .ok _ => pure rs

/-- The `then.after` value `ruleSetRead` writes back (`part_002` line 507):
`fmt.Sprintf("%d", 60*rule.Wait)` seconds. -/
def readRuleAfter (rule : RuleSetRule) : String := natString (60 * rule.Wait)

/-- An `if.value` block with all attributes unset. -/
def emptyRuleValueAttrs : ruleSetValueAttrs :=
  { absent := "", changed := "", contains := "", matchVal := "", notMatch := "",
    minValue := "", maxValue := "", eqValue := "", neqValue := "",
    notContain := "", over := [] }

/-- A numeric-typed rule set whose only rule uses the text-only `contains`
criteria (the C5 failing input). -/
def numericContainsRuleSet : ruleSetAttrs :=
  { check := "/check/1234", name := "", link := "", metricType := "numeric",
    notes := "", userJSON := "", parent := "", metricName := "cpu",
    metricPattern := "", metricFilter := "",
    ifRules := [{ thenList := [],
                  value := [{ emptyRuleValueAttrs with contains := "needle" }] }] }

/-- A text-typed rule set whose only rule uses the numeric-only `min_value`
criteria (the symmetric C5 failing input). -/
def textMinValueRuleSet : ruleSetAttrs :=
  { numericContainsRuleSet with
      metricType := "text",
      ifRules := [{ thenList := [],
                    value := [{ emptyRuleValueAttrs with minValue := "5" }] }] }

/-- A one-rule rule set whose `then.after` is the decimal string for `n`
seconds and whose criteria (`max_value`) keeps the rule. -/
def afterRuleSetAttrs (n : Nat) : ruleSetAttrs :=
  { check := "/check/1234", name := "", link := "", metricType := "numeric",
    notes := "", userJSON := "", parent := "", metricName := "cpu",
    metricPattern := "", metricFilter := "",
    ifRules := [{ thenList := [{ after := natString n, notify := [], severity := 2 }],
                  value := [{ emptyRuleValueAttrs with maxValue := "90" }] }] }

/-- A rule whose windowing minimum exceeds its window duration. -/
def windowViolatingRule : RuleSetRule :=
  { Criteria := apiRuleSetMaxValue, Value := .str "90", Wait := 0, Severity := 2,
    WindowingDuration := 5, WindowingMinDuration := 10,
    WindowingFunction := some "average" }

/-- The rule set `circonusRuleSet.ParseConfig` produces for
`afterRuleSetAttrs n`. -/
def afterRuleSetResult (n : Nat) : circonusRuleSet :=
  { CID := "", CheckCID := "/check/1234", Name := "", Link := none,
    MetricType := "numeric", Notes := none, UserJSON := "", Parent := none,
    MetricName := "cpu", MetricPattern := "", Filter := "",
    ContactGroups := [(1, []), (2, []), (3, []), (4, []), (5, [])],
    Rules := [{ Criteria := apiRuleSetMaxValue, Value := .str "90",
                Wait := n / 60, Severity := 2, WindowingDuration := 0,
                WindowingMinDuration := 0, WindowingFunction := none }] }

/-- A fetched HTTP bundle whose config carries an unknown key of length
≤7 ("zzz"). -/
def shortKeyBundle : circonusCheck :=
  { newCheck with
      CheckType := "http",
      Config := [("url", "http://example.com/"), ("zzz", "v")] }

/-- The config association list `checkConfigToAPIHTTP` builds for an HTTP
block whose URL carries no port. -/
def httpConfigOf (h : checkHTTPAttrs) : List (String × String) :=
  [("auth_method", h.authMethod), ("auth_password", h.authPassword),
   ("auth_user", h.authUser), ("body", h.bodyRegexp), ("ca_chain", h.caChain),
   ("certificate_file", h.certFile), ("ciphers", h.ciphers), ("code", h.code),
   ("extract", h.extract)]
  ++ h.headers.map (fun kv => (headerKey kv.1, kv.2))
  ++ [("key_file", h.keyFile), ("method", h.method), ("payload", h.payload),
      ("read_limit", intString h.readLimit), ("url", h.url),
      ("http_version", h.version), ("redirects", h.redirects)]

/-- The bundle `circonusCheck.ParseConfig` produces for a canonical bag
whose period parses to `p` and timeout to `t` seconds. -/
def parsedCheckOf (a : checkAttrs) (p t : Nat) : circonusCheck :=
  { Status := "active",
    Brokers := a.collector,
    MetricLimit := a.metricLimit,
    DisplayName := a.name,
    Notes := if a.notes = "" then none else some a.notes,
    Period := p,
    Metrics := a.metric.map metricParseConfigMap,
    MetricFilters := a.metricFilter.map (fun f =>
      [f.filterType, f.regex] ++ ["tags", f.tagQuery] ++ [f.comment]),
    Tags := a.tags,
    Target := a.target,
    Timeout := t,
    CheckType := "http",
    Config := httpConfigOf a.http }

/-- The bags on which the amended round-trip law holds.  The conjuncts fall
in two groups.  The first three restrict attributes to the representation the
documented normalizations produce, plus the validation rule:

* `active = true` (`GetOk` cannot distinguish `false` from unset, and the
  schema injects the default `true` for unset — default injection);
* the period is the canonical seconds string `"<p>s"` and the timeout the
  canonical Go duration string of `t ≤ p` seconds (duration reformatting);
* exactly one of `metric` / `metric_filter` is populated (required by
  `circonusCheck.Validate`).

The last three are **not** normalizations: they exclude valid bags on which
the round trip genuinely fails, refuting the original claim (see the C1
counterexample `check_config_roundtrip_port_counterexample`):

* the target is set (an empty target is silently replaced by the URL's
  host, so the read returns a different target);
* the URL's host carries no port (a port is copied into the `port` config
  key, which `checkAPIToStateHTTP` never consumes; being 4 characters it
  survives the header loop's cut-off and the read **errors** with the
  PROVIDER BUG leftover-key failure);
* header names are non-empty (an empty name yields the bare 7-character
  config key `"header_"`, likewise rejected as leftover). -/
def CanonicalCheckAttrs (a : checkAttrs) : Prop :=
  a.active = true
  ∧ (∃ p t, a.period = natString p ++ "s" ∧ a.timeout = goDurString t ∧ t ≤ p)
  ∧ ((a.metric = [] ∧ a.metricFilter ≠ []) ∨ (a.metric ≠ [] ∧ a.metricFilter = []))
  ∧ a.target ≠ ""
  ∧ (∀ kv ∈ a.http.headers, kv.1 ≠ "")
  ∧ (urlHost a.http.url).data.contains ':' = false

/-! ### Supporting lemmas -/

theorem natCharsAux_irrel (f₁ : Nat) : ∀ (f₂ n : Nat), n < f₁ → n < f₂ →
    natCharsAux f₁ n = natCharsAux f₂ n := by
  induction f₁ with
  | zero => omega
  | succ f₁ ih =>
    intro f₂ n h₁ h₂
    cases f₂ with
    | zero => omega
    | succ f₂ =>
      rw [natCharsAux, natCharsAux]
      split
      · rfl
      · next h =>
        have hd : n / 10 < n := Nat.div_lt_self (by omega) (by omega)
        rw [ih f₂ (n / 10) (by omega) (by omega)]

theorem natChars_unfold (n : Nat) :
    natChars n = if n < 10 then [digitChar n]
      else natChars (n / 10) ++ [digitChar (n % 10)] := by
  rw [natChars, natCharsAux]
  split
  · rfl
  · next h =>
    have hd : n / 10 < n := Nat.div_lt_self (by omega) (by omega)
    rw [natCharsAux_irrel n (n / 10 + 1) (n / 10) (by omega) (by omega)]
    rfl

theorem digitsToNat_append (l₁ l₂ : List Char) :
    digitsToNat (l₁ ++ l₂) = l₂.foldl (fun a c => a * 10 + charVal c) (digitsToNat l₁) := by
  simp [digitsToNat, List.foldl_append]

theorem charVal_digitChar (n : Nat) (h : n < 10) : charVal (digitChar n) = n := by
  interval_cases n <;> decide

theorem digitChar_isDigit (n : Nat) (h : n < 10) : (digitChar n).isDigit := by
  interval_cases n <;> decide

theorem natChars_ne_nil (n : Nat) : natChars n ≠ [] := by
  rw [natChars_unfold]
  split <;> simp

theorem natChars_all_digits (n : Nat) : ∀ c ∈ natChars n, c.isDigit := by
  induction n using Nat.strong_induction_on with
  | _ n ih =>
    rw [natChars_unfold]
    split
    · next h => simpa using digitChar_isDigit n h
    · next h =>
      intro c hc
      rcases List.mem_append.1 hc with hc | hc
      · exact ih (n / 10) (Nat.div_lt_self (by omega) (by omega)) c hc
      · simp at hc
        subst hc
        exact digitChar_isDigit _ (Nat.mod_lt _ (by omega))

theorem digitsToNat_natChars (n : Nat) : digitsToNat (natChars n) = n := by
  induction n using Nat.strong_induction_on with
  | _ n ih =>
    rw [natChars_unfold]
    split
    · next h => simp [digitsToNat, charVal_digitChar n h]
    · next h =>
      rw [digitsToNat_append]
      simp only [List.foldl]
      rw [ih (n / 10) (Nat.div_lt_self (by omega) (by omega)),
        charVal_digitChar _ (Nat.mod_lt _ (by omega))]
      omega

theorem natString_injective : Function.Injective natString := by
  intro a b h
  have : digitsToNat (natChars a) = digitsToNat (natChars b) := by
    have : natChars a = natChars b := congrArg String.data h
    rw [this]
  rwa [digitsToNat_natChars, digitsToNat_natChars] at this

theorem takeWhile_append_not {p : Char → Bool} (l₁ l₂ : List Char)
    (h₁ : ∀ c ∈ l₁, p c) (h₂ : ∀ x, l₂.head? = some x → ¬ p x) :
    (l₁ ++ l₂).takeWhile p = l₁ ∧ (l₁ ++ l₂).dropWhile p = l₂ := by
  induction l₁ with
  | nil =>
    cases l₂ with
    | nil => simp
    | cons x xs =>
      have := h₂ x rfl
      constructor
      · simp [List.takeWhile_cons, this]
      · simp [List.dropWhile_cons, this]
  | cons a as ih =>
    have ha : p a := h₁ a (by simp)
    have ih' := ih (fun c hc => h₁ c (by simp [hc]))
    constructor
    · simp [List.takeWhile_cons, ha, ih'.1]
    · simp [List.dropWhile_cons, ha, ih'.2]

theorem digitChar_not_alpha (n : Nat) (h : n < 10) : ¬ (digitChar n).isAlpha := by
  interval_cases n <;> decide

theorem natChars_not_alpha (n : Nat) : ∀ c ∈ natChars n, ¬ c.isAlpha := by
  induction n using Nat.strong_induction_on with
  | _ n ih =>
    rw [natChars_unfold]
    split
    · next h => simpa using digitChar_not_alpha n h
    · next h =>
      intro c hc
      rcases List.mem_append.1 hc with hc | hc
      · exact ih (n / 10) (Nat.div_lt_self (by omega) (by omega)) c hc
      · simp at hc
        subst hc
        exact digitChar_not_alpha _ (Nat.mod_lt _ (by omega))

theorem head_not_alpha_of_digits_append (n : Nat) (l : List Char) :
    ∀ x, (natChars n ++ l).head? = some x → ¬ x.isAlpha := by
  intro x hx
  obtain ⟨c, cs, hc⟩ : ∃ c cs, natChars n = c :: cs := by
    cases h : natChars n with
    | nil => exact absurd h (natChars_ne_nil n)
    | cons c cs => exact ⟨c, cs, rfl⟩
  have hxc : x = c := by
    rw [hc, List.cons_append, List.head?_cons] at hx
    exact (Option.some.inj hx).symm
  rw [hxc]
  exact natChars_not_alpha n c (by rw [hc]; simp)

theorem parseDurComponent_unit (n : Nat) (u : Char) (k : Nat) (rest : List Char)
    (hu : (u = 's' ∧ k = 1) ∨ (u = 'm' ∧ k = 60) ∨ (u = 'h' ∧ k = 3600))
    (hrest : ∀ x, rest.head? = some x → ¬ x.isAlpha) :
    parseDurComponent (natChars n ++ u :: rest) = some (k * n, rest) := by
  have hd := takeWhile_append_not (p := Char.isDigit) (natChars n) (u :: rest)
    (natChars_all_digits n)
    (by
      intro x hx
      simp at hx
      subst hx
      rcases hu with ⟨h, _⟩ | ⟨h, _⟩ | ⟨h, _⟩ <;> subst h <;> decide)
  have ha := takeWhile_append_not (p := Char.isAlpha) [u] rest
    (by
      intro c hc
      simp at hc
      subst hc
      rcases hu with ⟨h, _⟩ | ⟨h, _⟩ | ⟨h, _⟩ <;> subst h <;> decide)
    hrest
  simp only [List.singleton_append] at ha
  rw [parseDurComponent]
  simp only [hd.1, hd.2, ha.1, ha.2]
  rw [if_neg (natChars_ne_nil n)]
  rcases hu with ⟨h, hk⟩ | ⟨h, hk⟩ | ⟨h, hk⟩ <;> subst h <;> subst hk <;>
    simp [digitsToNat_natChars, Nat.one_mul]

theorem parseDurAux_seconds (fuel n : Nat) :
    parseDurAux (fuel + 1) (natChars n ++ ['s']) = some n := by
  have h := parseDurComponent_unit n 's' 1 [] (by simp) (by simp)
  rw [parseDurAux, h]
  simp

theorem parseDurAux_min_sec (fuel m s : Nat) :
    parseDurAux (fuel + 2) (natChars m ++ 'm' :: (natChars s ++ ['s'])) = some (60 * m + s) := by
  have h := parseDurComponent_unit m 'm' 60 (natChars s ++ ['s'])
    (by simp) (head_not_alpha_of_digits_append s ['s'])
  obtain ⟨c, cs, hc⟩ : ∃ c cs, natChars s ++ ['s'] = c :: cs := by
    cases natChars s with
    | nil => exact ⟨'s', [], rfl⟩
    | cons a as => exact ⟨a, as ++ ['s'], by simp⟩
  rw [show fuel + 2 = (fuel + 1) + 1 from rfl, parseDurAux, h, hc]
  have := parseDurAux_seconds fuel s
  rw [hc] at this
  simp [this]

theorem parseDurAux_hr_min_sec (fuel h m s : Nat) :
    parseDurAux (fuel + 3)
      (natChars h ++ 'h' :: (natChars m ++ 'm' :: (natChars s ++ ['s']))) =
      some (3600 * h + (60 * m + s)) := by
  have hcomp := parseDurComponent_unit h 'h' 3600 (natChars m ++ 'm' :: (natChars s ++ ['s']))
    (by simp) (head_not_alpha_of_digits_append m _)
  obtain ⟨c, cs, hc⟩ : ∃ c cs, natChars m ++ 'm' :: (natChars s ++ ['s']) = c :: cs := by
    cases natChars m with
    | nil => exact ⟨'m', natChars s ++ ['s'], rfl⟩
    | cons a as => exact ⟨a, as ++ 'm' :: (natChars s ++ ['s']), by simp⟩
  rw [show fuel + 3 = (fuel + 2) + 1 from rfl, parseDurAux, hcomp, hc]
  have := parseDurAux_min_sec fuel m s
  rw [hc] at this
  simp [this]

theorem parseDuration_natString_s (n : Nat) :
    parseDuration (natString n ++ "s") = some n := by
  have hdata : (natString n ++ "s").data = natChars n ++ ['s'] := by
    rw [String.data_append]; rfl
  rw [parseDuration, hdata]
  have hlen : (natChars n ++ ['s']).length = (natChars n).length + 1 := by simp
  rw [hlen]
  exact parseDurAux_seconds (natChars n).length n

theorem parseDuration_goDurString (n : Nat) :
    parseDuration (goDurString n) = some n := by
  rw [goDurString]
  by_cases h0 : n = 0
  · subst h0; simp; decide
  rw [if_neg h0]
  by_cases h60 : n < 60
  · rw [if_pos h60]; exact parseDuration_natString_s n
  rw [if_neg h60]
  by_cases h3600 : n < 3600
  · rw [if_pos h3600]
    have hdata : (natString (n / 60) ++ "m" ++ natString (n % 60) ++ "s").data
        = natChars (n / 60) ++ 'm' :: (natChars (n % 60) ++ ['s']) := by
      simp only [String.data_append]
      simp [natString, List.append_assoc]
    rw [parseDuration, hdata]
    have hlen : (natChars (n / 60) ++ 'm' :: (natChars (n % 60) ++ ['s'])).length
        = ((natChars (n / 60)).length + (natChars (n % 60)).length) + 2 := by
      simp; omega
    rw [hlen, parseDurAux_min_sec]
    congr 1
    omega
  · rw [if_neg h3600]
    have hdata : (natString (n / 3600) ++ "h" ++ natString (n % 3600 / 60) ++ "m"
          ++ natString (n % 60) ++ "s").data
        = natChars (n / 3600) ++ 'h' :: (natChars (n % 3600 / 60) ++ 'm'
          :: (natChars (n % 60) ++ ['s'])) := by
      simp only [String.data_append]
      simp [natString, List.append_assoc]
    rw [parseDuration, hdata]
    have hlen : (natChars (n / 3600) ++ 'h' :: (natChars (n % 3600 / 60) ++ 'm'
          :: (natChars (n % 60) ++ ['s']))).length
        = ((natChars (n / 3600)).length + (natChars (n % 3600 / 60)).length
          + (natChars (n % 60)).length) + 3 := by
      simp; omega
    rw [hlen, parseDurAux_hr_min_sec]
    congr 1
    omega

theorem parseNatStr_natString (n : Nat) : parseNatStr (natString n) = some n := by
  rw [parseNatStr]
  rw [if_pos ⟨natChars_ne_nil n, List.all_eq_true.2 (natChars_all_digits n)⟩]
  show some (digitsToNat (natChars n)) = some n
  rw [digitsToNat_natChars]

theorem natChars_head_digit (n : Nat) :
    ∀ x, (natChars n).head? = some x → x.isDigit := by
  intro x hx
  cases h : natChars n with
  | nil => exact absurd h (natChars_ne_nil n)
  | cons c cs =>
    rw [h, List.head?_cons] at hx
    rw [← Option.some.inj hx]
    exact natChars_all_digits n c (by rw [h]; simp)

theorem parseIntStr_intString (i : Int) : parseIntStr (intString i) = some i := by
  rw [intString]
  by_cases h : i < 0
  · rw [if_pos h]
    have hdata : (("-" : String) ++ natString i.natAbs).data = '-' :: natChars i.natAbs := by
      rw [String.data_append]; rfl
    rw [parseIntStr, hdata]
    show (parseNatStr (natString i.natAbs)).map (fun n => -(n : Int)) = some i
    rw [parseNatStr_natString]
    show some (-(i.natAbs : Int)) = some i
    rw [Int.ofNat_natAbs_of_nonpos (le_of_lt h), neg_neg]
  · rw [if_neg h]
    rw [parseIntStr]
    split
    · next rest heq =>
      exfalso
      have hhd : (natChars i.natAbs).head? = some '-' := by
        rw [show natChars i.natAbs = (natString i.natAbs).data from rfl, heq]
        rfl
      have : ('-' : Char).isDigit := natChars_head_digit i.natAbs '-' hhd
      exact absurd this (by decide)
    · rw [parseNatStr_natString]
      show some ((i.natAbs : Nat) : Int) = some i
      rw [Int.natAbs_of_nonneg (by omega)]

/-! ### Claims about check validation (C2, C3) -/

/-- C2: for every check bundle, `circonusCheck.Validate` returns the
"Metrics and MetricFilters both have entries" error when both lists are
non-empty, returns the "must supply one or the other" error when both are
empty, and raises neither of those two errors when exactly one of the lists
is non-empty. -/
theorem validate_metrics_xor_metric_filters (c : circonusCheck) :
    (c.Metrics ≠ [] ∧ c.MetricFilters ≠ [] →
      c.Validate = .error .metricsAndMetricFilters)
    ∧ (c.Metrics = [] ∧ c.MetricFilters = [] →
      c.Validate = .error .noMetricsOrMetricFilters)
    ∧ ((c.Metrics = [] ∧ c.MetricFilters ≠ []) ∨ (c.Metrics ≠ [] ∧ c.MetricFilters = []) →
      c.Validate ≠ .error .metricsAndMetricFilters
        ∧ c.Validate ≠ .error .noMetricsOrMetricFilters) := by
  refine ⟨?_, ?_, ?_⟩
  · rintro ⟨h1, h2⟩
    rw [circonusCheck.Validate,
      if_pos ⟨List.length_pos.2 h1, List.length_pos.2 h2⟩]
  · rintro ⟨h1, h2⟩
    rw [circonusCheck.Validate,
      if_neg (by simp [h1, h2]),
      if_pos ⟨by simp [h1], by simp [h2]⟩]
  · intro h
    have hcond1 : ¬ (c.Metrics.length > 0 ∧ c.MetricFilters.length > 0) := by
      rcases h with ⟨h1, _⟩ | ⟨_, h2⟩
      · simp [h1]
      · simp [h2]
    have hcond2 : ¬ (c.Metrics.length = 0 ∧ c.MetricFilters.length = 0) := by
      rcases h with ⟨_, h2⟩ | ⟨h1, _⟩
      · intro hc
        exact h2 (List.length_eq_zero.1 hc.2)
      · intro hc
        exact h1 (List.length_eq_zero.1 hc.1)
    rw [circonusCheck.Validate, if_neg hcond1, if_neg hcond2]
    constructor <;>
      · split_ifs <;> try simp
        split <;> try simp
        split_ifs <;> simp

/-- Witness for `validate_metrics_xor_metric_filters` at a concrete bundle
with both lists populated. -/
theorem validate_metrics_xor_metric_filters_witness :
    ({ newCheck with
        Metrics := [{ Name := "m", MetricType := "numeric", Status := "active" }],
        MetricFilters := [["allow", ".*"]] } : circonusCheck).Validate
      = .error .metricsAndMetricFilters :=
  (validate_metrics_xor_metric_filters _).1 ⟨by decide, by decide⟩

/-- C3: for bundles passing the metrics/metric-filters rules,
`circonusCheck.Validate` fails with the "Timeout can not exceed period"
error exactly when the timeout exceeds the period; and, through
`circonusCheck.ParseConfig`, the spec's example with `period="60s"` and
`timeout="90s"` fails with that error while the same check with
`timeout="30s"` parses (and validates) successfully. -/
theorem validate_timeout_cannot_exceed_period (c : circonusCheck)
    (h : (c.Metrics = [] ∧ c.MetricFilters ≠ []) ∨ (c.Metrics ≠ [] ∧ c.MetricFilters = [])) :
    (c.Validate = .error (.timeoutExceedsPeriod c.Timeout c.Period) ↔ c.Period < c.Timeout)
    ∧ circonusCheck.ParseConfig exampleCheck60_90 = .error (.timeoutExceedsPeriod 90 60)
    ∧ (circonusCheck.ParseConfig exampleCheck60_30).isOk = true := by
  refine ⟨?_, by decide, by decide⟩
  have hcond1 : ¬ (c.Metrics.length > 0 ∧ c.MetricFilters.length > 0) := by
    rcases h with ⟨h1, _⟩ | ⟨_, h2⟩
    · simp [h1]
    · simp [h2]
  have hcond2 : ¬ (c.Metrics.length = 0 ∧ c.MetricFilters.length = 0) := by
    rcases h with ⟨_, h2⟩ | ⟨h1, _⟩
    · intro hc
      exact h2 (List.length_eq_zero.1 hc.2)
    · intro hc
      exact h1 (List.length_eq_zero.1 hc.1)
  rw [circonusCheck.Validate, if_neg hcond1, if_neg hcond2]
  constructor
  · intro heq
    by_contra hlt
    rw [if_neg (by omega)] at heq
    revert heq
    split_ifs <;> try simp
    split <;> try simp
    split_ifs <;> simp
  · intro hlt
    rw [if_pos hlt]

/-- Witness for `validate_timeout_cannot_exceed_period` at a concrete
bundle. -/
theorem validate_timeout_cannot_exceed_period_witness :
    ({ newCheck with
        MetricFilters := [["allow", ".*"]],
        Period := 60,
        Timeout := 90 } : circonusCheck).Validate
      = .error (.timeoutExceedsPeriod 90 60) :=
  ((validate_timeout_cannot_exceed_period _ (Or.inl ⟨rfl, by decide⟩)).1).2 (by decide)

theorem axisStateToAPI_ok_of_valid (s : String) (h : s = "left" ∨ s = "right" ∨ s = "") :
    ∃ v, axisStateToAPI s = .ok v := by
  rcases h with h | h | h <;> subst h
  · exact ⟨"l", by decide⟩
  · exact ⟨"r", by decide⟩
  · exact ⟨"l", by decide⟩

theorem axisAPIToState_ok_word (s v : String) (h : axisAPIToState s = .ok v) :
    v = "left" ∨ v = "right" := by
  rw [axisAPIToState] at h
  split_ifs at h <;> simp_all

/-! ### Claims about deletion (C8) -/

/-- C8 counterexample: when the vendor delete call reports an error (as it
does when the resource is already gone and the client surfaces that as an
error), the Terraform ID is **not** cleared — `d.SetId("")` is only reached
on a `nil` error — contradicting "the ID is cleared unconditionally
regardless of the vendor client's result". -/
theorem delete_id_not_cleared_on_vendor_error :
    (checkDelete (.error "API 404 - resource not found") "/check_bundle/1234").1
        = "/check_bundle/1234"
    ∧ (graphDelete (.error "API 404 - resource not found") "/graph/4567").1
        = "/graph/4567" :=
  ⟨rfl, rfl⟩

/-- C8 (amended): for both `checkDelete` and `graphDelete` the resource ID is
cleared if and only if the vendor client call returns without error (the
boolean payload of a successful call is ignored); on a client error the
delete aborts with the ID intact and the error as its diagnostic. -/
theorem delete_clears_id_iff_vendor_ok (r : Except String Bool) (id : String)
    (hid : id ≠ "") :
    ((checkDelete r id).1 = "" ↔ r.isOk = true)
    ∧ ((graphDelete r id).1 = "" ↔ r.isOk = true)
    ∧ (r.isOk = true → (checkDelete r id).2 = none ∧ (graphDelete r id).2 = none) := by
  cases r <;> simp [checkDelete, graphDelete, hid, Except.isOk, Except.toBool]

/-- Witness for `delete_clears_id_iff_vendor_ok`: a successful vendor call on
a live check clears the ID. -/
theorem delete_clears_id_iff_vendor_ok_witness :
    ("/check_bundle/1234" : String) ≠ ""
    ∧ ((checkDelete (.ok true) "/check_bundle/1234").1 = ""
        ↔ (Except.ok true : Except String Bool).isOk = true) :=
  ⟨by decide, (delete_clears_id_iff_vendor_ok (.ok true) "/check_bundle/1234" (by decide)).1⟩

/-! ### Claims about graph datapoints and axes (C4, C9) -/

/-- C9: the axis translation shared by the datapoint and metric-cluster
mappings sends `"l"` and `""` to `"left"` and `"r"` to `"right"` (any other
API value is the PROVIDER BUG error), its inverse sends `"left"` and `""` to
`"l"` and `"right"` to `"r"`, and consequently every state bag produced by
`graphRead`'s datapoint or metric-cluster loop carries `"left"` or
`"right"`. -/
theorem axis_letter_word_mapping :
    (axisAPIToState "l" = .ok "left" ∧ axisAPIToState "" = .ok "left"
      ∧ axisAPIToState "r" = .ok "right")
    ∧ (∀ s, s ≠ "l" → s ≠ "" → s ≠ "r" →
        axisAPIToState s = .error (.unsupportedAxisType s))
    ∧ (axisStateToAPI "left" = .ok "l" ∧ axisStateToAPI "" = .ok "l"
      ∧ axisStateToAPI "right" = .ok "r")
    ∧ (∀ dp a, readGraphDatapoint dp = .ok a → a.axis = "left" ∨ a.axis = "right")
    ∧ (∀ mc a, readGraphMetricCluster mc = .ok a → a.axis = "left" ∨ a.axis = "right") := by
  refine ⟨⟨by decide, by decide, by decide⟩, ?_, ⟨by decide, by decide, by decide⟩, ?_, ?_⟩
  · intro s h1 h2 h3
    rw [axisAPIToState, if_neg (by simp [h1, h2]), if_neg h3]
  · intro dp a h
    rcases haxis : axisAPIToState dp.Axis with e | v
    · rw [readGraphDatapoint, haxis] at h
      simp [Bind.bind, Except.bind] at h
    · have hv := axisAPIToState_ok_word dp.Axis v haxis
      rw [readGraphDatapoint, haxis] at h
      cases hder : dp.Derive with
      | nilVal =>
        rw [hder] at h
        simp [Bind.bind, Except.bind] at h
      | boolVal b =>
        rw [hder] at h
        simp only [Bind.bind, Except.bind, Except.ok.injEq] at h
        rw [← h]
        exact hv
      | strVal u =>
        rw [hder] at h
        simp only [Bind.bind, Except.bind, Except.ok.injEq] at h
        rw [← h]
        exact hv
  · intro mc a h
    rcases haxis : axisAPIToState mc.Axis with e | v
    · rw [readGraphMetricCluster, haxis] at h
      simp [Bind.bind, Except.bind] at h
    · have hv := axisAPIToState_ok_word mc.Axis v haxis
      rw [readGraphMetricCluster, haxis] at h
      simp only [Bind.bind, Except.bind, Except.ok.injEq] at h
      rw [← h]
      exact hv

/-- Witness for `axis_letter_word_mapping` at a concrete datapoint. -/
theorem axis_letter_word_mapping_witness :
    axisAPIToState "x" = .error (.unsupportedAxisType "x")
    ∧ (readGraphDatapoint noLocatorDatapoint = .ok (readGraphDatapoint noLocatorDatapoint |>.toOption |>.getD noLocatorMetric) →
        (readGraphDatapoint noLocatorDatapoint |>.toOption |>.getD noLocatorMetric).axis = "left"
          ∨ (readGraphDatapoint noLocatorDatapoint |>.toOption |>.getD noLocatorMetric).axis = "right") :=
  ⟨(axis_letter_word_mapping.2.1) "x" (by decide) (by decide) (by decide),
   (axis_letter_word_mapping.2.2.2.1) noLocatorDatapoint _⟩

/-- C4 counterexample: a graph datapoint supplying **no** locator at all is
accepted — `circonusGraph.ParseConfig`'s locator switch falls through to the
no-locator default without error, and `circonusGraph.Validate` accepts the
resulting datapoint — contradicting "a datapoint supplying no locator at all
must also fail". -/
theorem graph_datapoint_no_locator_accepted :
    parseGraphDatapoint 0 noLocatorMetric = .ok noLocatorDatapoint
    ∧ circonusGraph.Validate { Datapoints := [noLocatorDatapoint], MetricClusters := [] }
        = .ok () :=
  ⟨by decide, by decide⟩

/-- C4 (amended): for a datapoint block with a valid axis value,
`parseGraphDatapoint` succeeds exactly when the check ID and metric name are
supplied together (or not at all) and **at most** one of the three locators
(check + metric_name, CAQL, search) is supplied; more than one locator, or an
unpaired check/metric name, is an error, and exactly one locator (or none at
all) is accepted. -/
theorem graph_datapoint_locator_validation (i : Nat) (m : graphMetricAttrs)
    (haxis : m.axis = "left" ∨ m.axis = "right" ∨ m.axis = "") :
    (parseGraphDatapoint i m).isOk = true ↔
      (((parseCheckCID m.check).getD 0 > 0 ↔ trimSpace m.metricName ≠ "")
        ∧ numLocators m ≤ 1) := by
  obtain ⟨v, hv⟩ := axisStateToAPI_ok_of_valid m.axis haxis
  rw [parseGraphDatapoint, hv]
  simp only [Bind.bind, Except.bind]
  by_cases hc : (parseCheckCID m.check).getD 0 = 0 <;>
    by_cases hn : trimSpace m.metricName = "" <;>
      by_cases hq : trimSpace m.caql = "" <;>
        by_cases hs : trimSpace m.search = "" <;>
          simp [numLocators, hc, hn, hq, hs, Nat.pos_iff_ne_zero, Except.isOk,
            Except.toBool]

/-- Witness for `graph_datapoint_locator_validation` at the concrete
zero-locator block. -/
theorem graph_datapoint_locator_validation_witness :
    (parseGraphDatapoint 0 noLocatorMetric).isOk = true ↔
      (((parseCheckCID noLocatorMetric.check).getD 0 > 0
          ↔ trimSpace noLocatorMetric.metricName ≠ "")
        ∧ numLocators noLocatorMetric ≤ 1) :=
  graph_datapoint_locator_validation 0 noLocatorMetric (Or.inl rfl)

theorem natString_ne_empty (n : Nat) : natString n ≠ "" := by
  intro h
  exact natChars_ne_nil n (congrArg String.data h)

theorem validateRules_error_of_window_violation (cid mt : String) (rules : List RuleSetRule) :
    ∀ j : Nat, (∃ r ∈ rules, r.WindowingDuration < r.WindowingMinDuration) →
      ∃ e, validateRules cid mt j rules = .error e := by
  induction rules with
  | nil =>
    intro j h
    simp at h
  | cons r rest ih =>
    intro j h
    rw [validateRules]
    split_ifs with h1 h2 h3 h4
    · exact ⟨_, rfl⟩
    · exact ⟨_, rfl⟩
    · exact ⟨_, rfl⟩
    · exact ⟨_, rfl⟩
    · rcases h with ⟨r', hr', hviol⟩
      rcases List.mem_cons.1 hr' with heq | hmem
      · subst heq
        exact absurd hviol (by omega)
      · exact ih (j + 1) ⟨r', hmem, hviol⟩

theorem validateRules_no_window_error (cid mt : String) (rules : List RuleSetRule) :
    ∀ j : Nat, (∀ r ∈ rules, r.WindowingMinDuration ≤ r.WindowingDuration) →
      ∀ i cid', validateRules cid mt j rules ≠ .error (.windowMinExceedsDuration i cid') := by
  induction rules with
  | nil =>
    intro j _ i cid'
    rw [validateRules]
    simp
  | cons r rest ih =>
    intro j h i cid'
    rw [validateRules]
    split_ifs with h1 h2 h3 h4
    · simp
    · exact absurd h2 (by have := h r (by simp); omega)
    · simp
    · simp
    · exact ih (j + 1) (fun r' hr' => h r' (by simp [hr'])) i cid'

/-! ### Claims about rule sets (C5, C6, C10) -/

/-- C5: a numeric-typed rule set whose rule uses the text-only `contains`
criteria does **not** fail `circonusRuleSet.ParseConfig` — the numeric
branch never consults `contains`, the rule's criteria stays empty and the
rule is silently dropped, so parsing succeeds with zero rules (and
symmetrically for a text-typed rule set with `min_value`) — even though
`circonusRuleSet.Validate` itself would reject exactly such a rule set, as
its own error message anticipates. -/
theorem ruleset_mismatched_criteria_silently_dropped :
    (circonusRuleSet.ParseConfig numericContainsRuleSet).map circonusRuleSet.Rules
        = .ok []
    ∧ (circonusRuleSet.ParseConfig textMinValueRuleSet).map circonusRuleSet.Rules
        = .ok []
    ∧ circonusRuleSet.Validate
        { newRuleSet with
            MetricName := "cpu", MetricType := "numeric", CheckCID := "/check/1234",
            Rules := [{ Criteria := apiRuleSetContains, Value := .str "needle",
                        Wait := 0, Severity := 0, WindowingDuration := 0,
                        WindowingMinDuration := 0, WindowingFunction := none }] }
        = .error (.textCriteriaOnNumericType 0 "/check/1234" "contains") :=
  ⟨by decide, by decide, by decide⟩

/-- C6: validation fails for every rule set containing a rule whose
`WindowingMinDuration` exceeds its `WindowingDuration`, and the
window-duration check never fires on a rule set all of whose rules satisfy
`WindowingMinDuration ≤ WindowingDuration`. -/
theorem validate_windowing_min_le_duration :
    (∀ rs : circonusRuleSet,
      (∃ r ∈ rs.Rules, r.WindowingDuration < r.WindowingMinDuration) →
        ∃ e, rs.Validate = .error e)
    ∧ (∀ rs : circonusRuleSet,
      (∀ r ∈ rs.Rules, r.WindowingMinDuration ≤ r.WindowingDuration) →
        ∀ i cid, rs.Validate ≠ .error (.windowMinExceedsDuration i cid)) := by
  constructor
  · intro rs h
    rw [circonusRuleSet.Validate]
    split_ifs with h1 h2
    · exact ⟨_, rfl⟩
    · exact ⟨_, rfl⟩
    · exact validateRules_error_of_window_violation rs.CheckCID rs.MetricType rs.Rules 0 h
  · intro rs h i cid
    rw [circonusRuleSet.Validate]
    split_ifs with h1 h2
    · simp
    · simp
    · exact validateRules_no_window_error rs.CheckCID rs.MetricType rs.Rules 0 h i cid

/-- Witness for `validate_windowing_min_le_duration`: a concrete rule set
with `atleast` 10 over a 5-second window fails validation. -/
theorem validate_windowing_min_le_duration_witness :
    ∃ e, ({ newRuleSet with
        MetricName := "cpu", MetricType := "numeric",
        Rules := [windowViolatingRule] } : circonusRuleSet).Validate = .error e :=
  validate_windowing_min_le_duration.1 _ ⟨windowViolatingRule, by decide, by decide⟩

/-- C10: for every rule, a `then.after` value of `n` seconds is converted by
`circonusRuleSet.ParseConfig` into `Wait = n / 60` whole minutes by
truncation, `ruleSetRead` writes it back as `60 * (n / 60)` seconds, and the
value round-trips exactly if and only if `n` is a multiple of 60. -/
theorem rule_after_truncates_to_minutes (n : Nat) :
    (∃ rs, circonusRuleSet.ParseConfig (afterRuleSetAttrs n) = .ok rs
        ∧ rs.Rules.map RuleSetRule.Wait = [n / 60]
        ∧ rs.Rules.map readRuleAfter = [natString (60 * (n / 60))])
    ∧ (natString (60 * (n / 60)) = natString n ↔ 60 ∣ n) := by
  constructor
  · refine ⟨afterRuleSetResult n, ?_, by simp [afterRuleSetResult],
      by simp [afterRuleSetResult, readRuleAfter]⟩
    rw [circonusRuleSet.ParseConfig]
    simp only [afterRuleSetAttrs, newRuleSet, Bind.bind, Except.bind, List.foldlM,
      parseRuleSetRule, parseRuleThen, parseRuleValue, parseRuleOver,
      parseRuleOverElem, emptyRuleValueAttrs, ruleSetMetricTypeNumeric,
      ruleSetMetricTypeText, apiRuleSetMaxValue, circonusRuleSet.Validate,
      validateRules, stringInSlice, apiRuleSetMatch, apiRuleSetNotMatch,
      apiRuleSetContains, apiRuleSetNotContains, apiRuleSetMinValue,
      apiRuleSetEqValue, apiRuleSetNotEqValue,
      ne_eq, natString_ne_empty n, parseDuration_natString_s n]
    simp [pure, Except.pure, afterRuleSetResult]
    rw [if_neg (by decide)]
    rw [validateRules,
      if_neg (by simp),
      if_neg (by simp),
      if_neg (by simp [stringInSlice, apiRuleSetMatch, apiRuleSetNotMatch,
        apiRuleSetContains, apiRuleSetNotContains, apiRuleSetMaxValue]),
      if_neg (by simp),
      validateRules]
    rfl
  · constructor
    · intro h
      have heq : 60 * (n / 60) = n := natString_injective h
      exact ⟨n / 60, heq.symm⟩
    · intro h
      obtain ⟨k, hk⟩ := h
      subst hk
      have : 60 * (60 * k / 60) = 60 * k := by omega
      rw [this]

/-! ### Claims about the HTTP check API-to-state mapping (C7) -/

/-- C7 counterexample: the config key `"mystery_long_key"` is not a known
attribute, not header-prefixed and not whitelisted — by the claim its
leftover must raise the PROVIDER BUG error — yet `checkAPIToStateHTTP`
succeeds: the header loop's `delete(swamp, k)` sits outside the prefix
comparison, so **every** key longer than `config.HeaderPrefix` is consumed
silently. -/
theorem http_api_to_state_unknown_long_key_accepted :
    ("mystery_long_key" ∉ httpKnownConfigKeys
      ∧ "mystery_long_key" ∉ httpWhitelistedConfigKeys
      ∧ ¬ (∃ k, "mystery_long_key" = headerKey k))
    ∧ (checkAPIToStateHTTP mysteryKeyBundle).isOk = true := by
  refine ⟨⟨by decide, by decide, ?_⟩, by decide⟩
  rintro ⟨k, hk⟩
  have : ("mystery_long_key" : String).data.take 7 = ("header_" : String).data.take 7 := by
    rw [hk]
    rw [show (headerKey k).data = ("header_" : String).data ++ k.data from
      String.data_append _ _]
    rw [List.take_append_of_le_length (by decide)]
  exact absurd this (by decide)

theorem swamp_all_iff (c : circonusCheck) :
    (((c.Config.map Prod.fst).filter
        (fun k => ¬ httpKnownConfigKeys.contains k
          ∧ ¬ k.data.length > ("header_" : String).data.length)).all
      (fun k => httpWhitelistedConfigKeys.contains k) = true)
    ↔ ∀ kv ∈ c.Config, kv.1 ∈ httpKnownConfigKeys
        ∨ kv.1.data.length > ("header_" : String).data.length
        ∨ kv.1 ∈ httpWhitelistedConfigKeys := by
  rw [List.all_eq_true]
  constructor
  · intro h kv hkv
    by_cases h1 : kv.1 ∈ httpKnownConfigKeys
    · exact Or.inl h1
    · by_cases h2 : kv.1.data.length > ("header_" : String).data.length
      · exact Or.inr (Or.inl h2)
      · refine Or.inr (Or.inr ?_)
        have hmem : kv.1 ∈ (c.Config.map Prod.fst).filter
            (fun k => ¬ httpKnownConfigKeys.contains k
              ∧ ¬ k.data.length > ("header_" : String).data.length) := by
          rw [List.mem_filter]
          refine ⟨List.mem_map_of_mem _ hkv, ?_⟩
          have hlen : kv.1.length = kv.1.data.length := rfl
          have hhp : ("header_" : String).data.length = 7 := rfl
          simp [h1]
          omega
        have := h kv.1 hmem
        simpa using this
  · intro h k hk
    rw [List.mem_filter] at hk
    obtain ⟨hk1, hk2⟩ := hk
    rw [List.mem_map] at hk1
    obtain ⟨kv, hkv, rfl⟩ := hk1
    rcases h kv hkv with h1 | h2 | h3
    · exfalso
      revert hk2
      simp [h1]
    · exfalso
      have h2' : 7 < kv.1.length := by
        have hlen : kv.1.length = kv.1.data.length := rfl
        have hhp : ("header_" : String).data.length = 7 := rfl
        omega
      revert hk2
      simp [h2']
    · simpa using h3

/-- C7 (amended): `checkAPIToStateHTTP` succeeds iff every key of the API
config map is one of the sixteen extracted keys, or longer than the
7-character header prefix (every such key is consumed — saved as a header
attribute when prefixed, silently dropped otherwise), or whitelisted;
otherwise it returns the "PROVIDER BUG: API Config not empty" error.  Only
keys no longer than the header prefix can trigger the error (and the two
whitelisted keys are themselves longer than the prefix, so the whitelist is
unreachable). -/
theorem http_api_to_state_leftover_condition (c : circonusCheck) :
    ((checkAPIToStateHTTP c).isOk = true ↔
      ∀ kv ∈ c.Config, kv.1 ∈ httpKnownConfigKeys
        ∨ kv.1.data.length > ("header_" : String).data.length
        ∨ kv.1 ∈ httpWhitelistedConfigKeys)
    ∧ ((checkAPIToStateHTTP c).isOk = false →
      checkAPIToStateHTTP c = .error .providerBugConfigNotEmpty) := by
  simp only [checkAPIToStateHTTP]
  split_ifs with hall
  · constructor
    · simp only [Except.isOk, Except.toBool]
      constructor
      · intro _
        exact (swamp_all_iff c).1 hall
      · intro _
        trivial
    · intro hcontra
      simp [Except.isOk, Except.toBool] at hcontra
  · constructor
    · constructor
      · intro hcontra
        simp [Except.isOk, Except.toBool] at hcontra
      · intro hforall
        exact absurd ((swamp_all_iff c).2 hforall) hall
    · intro _
      rfl


/-- Witness for `http_api_to_state_leftover_condition`: the unknown
3-character key `"zzz"` triggers the PROVIDER BUG error. -/
theorem http_api_to_state_leftover_condition_witness :
    checkAPIToStateHTTP shortKeyBundle = .error .providerBugConfigNotEmpty :=
  (http_api_to_state_leftover_condition shortKeyBundle).2 (by decide)

theorem goDurString_ne_empty (t : Nat) : goDurString t ≠ "" := by
  rw [goDurString]
  split_ifs with h1 h2 h3
  · decide
  · intro h
    have hd := congrArg String.data h
    rw [String.data_append] at hd
    exact natChars_ne_nil t (by
      cases hn : natChars t with
      | nil => rfl
      | cons c cs =>
        rw [show (natString t).data = natChars t from rfl, hn] at hd
        simp at hd)
  · intro h
    have hd := congrArg String.data h
    simp only [String.data_append] at hd
    cases hn : natChars (t / 60) with
    | nil => exact natChars_ne_nil _ hn
    | cons c cs =>
      rw [show (natString (t / 60)).data = natChars (t / 60) from rfl, hn] at hd
      simp at hd
  · intro h
    have hd := congrArg String.data h
    simp only [String.data_append] at hd
    cases hn : natChars (t / 3600) with
    | nil => exact natChars_ne_nil _ hn
    | cons c cs =>
      rw [show (natString (t / 3600)).data = natChars (t / 3600) from rfl, hn] at hd
      simp at hd

theorem headerKey_data (k : String) :
    (headerKey k).data = ("header_" : String).data ++ k.data :=
  String.data_append _ _

theorem headerKey_length (k : String) :
    (headerKey k).data.length = 7 + k.data.length := by
  rw [headerKey_data]
  simp
  omega

theorem headerKey_take (k : String) :
    (headerKey k).data.take 7 = ("header_" : String).data := by
  rw [headerKey_data, List.take_append_of_le_length (by decide)]
  decide

theorem headerKey_drop (k : String) :
    (headerKey k).data.drop 7 = k.data := by
  rw [headerKey_data]
  rw [show (7 : Nat) = ("header_" : String).data.length from rfl]
  exact List.drop_left _ _

theorem headerKey_ne (k t : String)
    (h : t.data.take 7 ≠ ("header_" : String).data) : headerKey k ≠ t := by
  intro heq
  exact h (heq ▸ headerKey_take k)

theorem lookup_skip {β : Type} (l₁ l₂ : List (String × β)) (a : String)
    (h : ∀ p ∈ l₁, p.1 ≠ a) : (l₁ ++ l₂).lookup a = l₂.lookup a := by
  induction l₁ with
  | nil => simp
  | cons p ps ih =>
    rw [List.cons_append, List.lookup]
    have hpa : (a == p.1) = false := by
      have := h p (by simp)
      simp [List.lookup]
      exact fun hc => absurd hc.symm this
    rw [show (a == p.1) = false from hpa]
    exact ih (fun q hq => h q (by simp [hq]))

theorem checkConfigToAPIHTTP_canonical (c : circonusCheck) (hat : checkHTTPAttrs)
    (hcfg : c.Config = []) (htgt : c.Target ≠ "")
    (hnoport : (urlHost hat.url).data.contains ':' = false) :
    checkConfigToAPIHTTP c [hat]
      = .ok { c with CheckType := "http", Config := httpConfigOf hat } := by
  have htlen : ¬ c.Target.length = 0 := fun h0 =>
    htgt (String.ext (List.length_eq_zero.1 h0))
  have hmem : ':' ∉ (urlHost hat.url).data := by simpa using hnoport
  simp only [checkConfigToAPIHTTP, hcfg, List.nil_append]
  rw [if_neg (show ¬ c.Target.length = 0 from htlen)]
  rw [if_neg (by simp [hmem])]
  simp [httpConfigOf, List.append_assoc]

theorem lookup_cons_self {β : Type} (k : String) (v : β) (l : List (String × β)) :
    ((k, v) :: l).lookup k = some v := by
  simp [List.lookup]

theorem lookup_cons_ne {β : Type} (a k : String) (v : β) (l : List (String × β))
    (h : (a == k) = false) : ((k, v) :: l).lookup a = l.lookup a := by
  simp [List.lookup, h]

theorem lookup_skip_headers (hs : List (String × String)) (l₂ : List (String × String))
    (key : String) (hkey : key.data.take 7 ≠ ("header_" : String).data) :
    ((hs.map (fun kv => (headerKey kv.1, kv.2))) ++ l₂).lookup key = l₂.lookup key := by
  apply lookup_skip
  rintro p hp
  rw [List.mem_map] at hp
  obtain ⟨kv, _, rfl⟩ := hp
  exact headerKey_ne kv.1 key hkey

theorem string_data_ge_one (s : String) (h : s ≠ "") : 1 ≤ s.data.length := by
  rcases hd : s.data with _ | ⟨c, cs⟩
  · exact absurd (String.ext (by rw [hd])) h
  · simp

theorem filterMap_header_keys (hs : List (String × String)) :
    (∀ kv ∈ hs, kv.1 ≠ "") →
    List.filterMap
      (fun kv =>
        if kv.1.data.length > ("header_" : String).data.length ∧
            List.take ("header_" : String).data.length kv.1.data =
              ("header_" : String).data then
          some (({ data := List.drop ("header_" : String).data.length kv.1.data } : String),
            kv.2)
        else none)
      (hs.map (fun kv => (headerKey kv.1, kv.2))) = hs := by
  induction hs with
  | nil => intro _; rfl
  | cons kv rest ih =>
    intro h
    have hne := h kv (by simp)
    have hlen : 1 ≤ kv.1.data.length := string_data_ge_one kv.1 hne
    have h7 : ("header_" : String).data.length = 7 := rfl
    have hcond : (headerKey kv.1).data.length > ("header_" : String).data.length ∧
        List.take ("header_" : String).data.length (headerKey kv.1).data =
          ("header_" : String).data := by
      refine ⟨?_, ?_⟩
      · rw [headerKey_length, h7]; omega
      · rw [h7]; exact headerKey_take kv.1
    have hstr :
        ({ data := List.drop ("header_" : String).data.length (headerKey kv.1).data } :
          String) = kv.1 := by
      rw [h7, headerKey_drop]
    have hf :
        (if (headerKey kv.1, kv.2).1.data.length > ("header_" : String).data.length ∧
            List.take ("header_" : String).data.length (headerKey kv.1, kv.2).1.data =
              ("header_" : String).data then
          some
            (({ data :=
                List.drop ("header_" : String).data.length (headerKey kv.1, kv.2).1.data } :
              String), (headerKey kv.1, kv.2).2)
        else none) = some (kv.1, kv.2) := by
      show (if (headerKey kv.1).data.length > ("header_" : String).data.length ∧
            List.take ("header_" : String).data.length (headerKey kv.1).data =
              ("header_" : String).data then
          some
            (({ data :=
                List.drop ("header_" : String).data.length (headerKey kv.1).data } :
              String), kv.2)
        else none) = some (kv.1, kv.2)
      rw [if_pos hcond, hstr]
    rw [List.map_cons, List.filterMap_cons, hf,
      ih (fun p hp => h p (List.mem_cons_of_mem _ hp))]

theorem checkAPIToStateHTTP_roundtrip (hat : checkHTTPAttrs)
    (hhead : ∀ kv ∈ hat.headers, kv.1 ≠ "") (c : circonusCheck)
    (hcfg : c.Config = httpConfigOf hat) :
    checkAPIToStateHTTP c = .ok hat := by
  have h7 : ("header_" : String).data.length = 7 := rfl
  have hswamp : ∀ kv ∈ c.Config, kv.1 ∈ httpKnownConfigKeys
      ∨ kv.1.data.length > ("header_" : String).data.length
      ∨ kv.1 ∈ httpWhitelistedConfigKeys := by
    simp only [hcfg, httpConfigOf]
    intro kv hkv
    rcases List.mem_append.1 hkv with h12 | hB
    · rcases List.mem_append.1 h12 with hA | hm
      · left
        simp only [List.mem_cons, List.not_mem_nil, or_false] at hA
        rcases hA with rfl | rfl | rfl | rfl | rfl | rfl | rfl | rfl | rfl <;>
          simp [httpKnownConfigKeys]
      · right; left
        rw [List.mem_map] at hm
        obtain ⟨p, hp, rfl⟩ := hm
        have hp1 := string_data_ge_one p.1 (hhead p hp)
        show (headerKey p.1).data.length > ("header_" : String).data.length
        rw [headerKey_length, h7]
        omega
    · left
      simp only [List.mem_cons, List.not_mem_nil, or_false] at hB
      rcases hB with rfl | rfl | rfl | rfl | rfl | rfl | rfl <;>
        simp [httpKnownConfigKeys]
  have hall := (swamp_all_iff c).2 hswamp
  have l01 : (httpConfigOf hat).lookup "auth_method" = some hat.authMethod := rfl
  have l02 : (httpConfigOf hat).lookup "auth_password" = some hat.authPassword := rfl
  have l03 : (httpConfigOf hat).lookup "auth_user" = some hat.authUser := rfl
  have l04 : (httpConfigOf hat).lookup "body" = some hat.bodyRegexp := rfl
  have l05 : (httpConfigOf hat).lookup "ca_chain" = some hat.caChain := rfl
  have l06 : (httpConfigOf hat).lookup "certificate_file" = some hat.certFile := rfl
  have l07 : (httpConfigOf hat).lookup "ciphers" = some hat.ciphers := rfl
  have l08 : (httpConfigOf hat).lookup "code" = some hat.code := rfl
  have l09 : (httpConfigOf hat).lookup "extract" = some hat.extract := rfl
  have l10 : (httpConfigOf hat).lookup "key_file" = some hat.keyFile := by
    rw [show (httpConfigOf hat).lookup "key_file"
        = ((hat.headers.map (fun kv => (headerKey kv.1, kv.2)))
            ++ [("key_file", hat.keyFile), ("method", hat.method), ("payload", hat.payload),
                ("read_limit", intString hat.readLimit), ("url", hat.url),
                ("http_version", hat.version), ("redirects", hat.redirects)]).lookup
            "key_file" from rfl,
      lookup_skip_headers hat.headers _ "key_file" (by decide)]
    rfl
  have l11 : (httpConfigOf hat).lookup "method" = some hat.method := by
    rw [show (httpConfigOf hat).lookup "method"
        = ((hat.headers.map (fun kv => (headerKey kv.1, kv.2)))
            ++ [("key_file", hat.keyFile), ("method", hat.method), ("payload", hat.payload),
                ("read_limit", intString hat.readLimit), ("url", hat.url),
                ("http_version", hat.version), ("redirects", hat.redirects)]).lookup
            "method" from rfl,
      lookup_skip_headers hat.headers _ "method" (by decide)]
    rfl
  have l12 : (httpConfigOf hat).lookup "payload" = some hat.payload := by
    rw [show (httpConfigOf hat).lookup "payload"
        = ((hat.headers.map (fun kv => (headerKey kv.1, kv.2)))
            ++ [("key_file", hat.keyFile), ("method", hat.method), ("payload", hat.payload),
                ("read_limit", intString hat.readLimit), ("url", hat.url),
                ("http_version", hat.version), ("redirects", hat.redirects)]).lookup
            "payload" from rfl,
      lookup_skip_headers hat.headers _ "payload" (by decide)]
    rfl
  have l13 : (httpConfigOf hat).lookup "read_limit" = some (intString hat.readLimit) := by
    rw [show (httpConfigOf hat).lookup "read_limit"
        = ((hat.headers.map (fun kv => (headerKey kv.1, kv.2)))
            ++ [("key_file", hat.keyFile), ("method", hat.method), ("payload", hat.payload),
                ("read_limit", intString hat.readLimit), ("url", hat.url),
                ("http_version", hat.version), ("redirects", hat.redirects)]).lookup
            "read_limit" from rfl,
      lookup_skip_headers hat.headers _ "read_limit" (by decide)]
    rfl
  have l14 : (httpConfigOf hat).lookup "url" = some hat.url := by
    rw [show (httpConfigOf hat).lookup "url"
        = ((hat.headers.map (fun kv => (headerKey kv.1, kv.2)))
            ++ [("key_file", hat.keyFile), ("method", hat.method), ("payload", hat.payload),
                ("read_limit", intString hat.readLimit), ("url", hat.url),
                ("http_version", hat.version), ("redirects", hat.redirects)]).lookup
            "url" from rfl,
      lookup_skip_headers hat.headers _ "url" (by decide)]
    rfl
  have l15 : (httpConfigOf hat).lookup "http_version" = some hat.version := by
    rw [show (httpConfigOf hat).lookup "http_version"
        = ((hat.headers.map (fun kv => (headerKey kv.1, kv.2)))
            ++ [("key_file", hat.keyFile), ("method", hat.method), ("payload", hat.payload),
                ("read_limit", intString hat.readLimit), ("url", hat.url),
                ("http_version", hat.version), ("redirects", hat.redirects)]).lookup
            "http_version" from rfl,
      lookup_skip_headers hat.headers _ "http_version" (by decide)]
    rfl
  have l16 : (httpConfigOf hat).lookup "redirects" = some hat.redirects := by
    rw [show (httpConfigOf hat).lookup "redirects"
        = ((hat.headers.map (fun kv => (headerKey kv.1, kv.2)))
            ++ [("key_file", hat.keyFile), ("method", hat.method), ("payload", hat.payload),
                ("read_limit", intString hat.readLimit), ("url", hat.url),
                ("http_version", hat.version), ("redirects", hat.redirects)]).lookup
            "redirects" from rfl,
      lookup_skip_headers hat.headers _ "redirects" (by decide)]
    rfl
  have lhdr : List.filterMap
      (fun kv =>
        if kv.1.data.length > ("header_" : String).data.length ∧
            List.take ("header_" : String).data.length kv.1.data =
              ("header_" : String).data then
          some (({ data := List.drop ("header_" : String).data.length kv.1.data } : String),
            kv.2)
        else none) (httpConfigOf hat) = hat.headers := by
    simp only [httpConfigOf, List.filterMap_append, filterMap_header_keys hat.headers hhead]
    show (([] : List (String × String)) ++ hat.headers) ++ ([] : List (String × String))
      = hat.headers
    simp
  simp only [checkAPIToStateHTTP]
  split
  case isTrue h =>
    rw [hcfg]
    simp only [l01, l02, l03, l04, l05, l06, l07, l08, l09, l10, l11, l12, l13, l14, l15,
      l16, lhdr, Option.getD_some, parseIntStr_intString]
  case isFalse h =>
    exact absurd hall h

theorem parseConfig_canonical (a : checkAttrs) (p t : Nat)
    (hact : a.active = true)
    (hper : a.period = natString p ++ "s")
    (htim : a.timeout = goDurString t)
    (htp : t ≤ p)
    (hxor : (a.metric = [] ∧ a.metricFilter ≠ []) ∨ (a.metric ≠ [] ∧ a.metricFilter = []))
    (htgt : a.target ≠ "")
    (hnoport : (urlHost a.http.url).data.contains ':' = false) :
    circonusCheck.ParseConfig a = .ok (parsedCheckOf a p t) := by
  have hpne : natString p ++ "s" ≠ "" := by
    intro h
    have hd := congrArg String.data h
    rw [String.data_append] at hd
    rcases List.append_eq_nil.1 hd with ⟨h1, _⟩
    exact natChars_ne_nil p h1
  have htne : goDurString t ≠ "" := goDurString_ne_empty t
  have hnotgt : ¬ (p < t) := by omega
  have hapi : ∀ (c : circonusCheck), c.Config = [] → c.Target = a.target →
      checkConfigToAPIHTTP c [a.http]
        = .ok { c with CheckType := "http", Config := httpConfigOf a.http } :=
    fun c hc ht => checkConfigToAPIHTTP_canonical c a.http hc (ht ▸ htgt) hnoport
  rcases hxor with ⟨hm, hf⟩ | ⟨hm, hf⟩ <;>
  by_cases hcol : a.collector = [] <;>
  by_cases hml : a.metricLimit = 0 <;>
  by_cases hname : a.name = "" <;>
  by_cases hnotes : a.notes = "" <;>
  by_cases htags : a.tags = [] <;>
    simp [circonusCheck.ParseConfig, newCheck, parsedCheckOf, checkConfigToAPI,
      circonusCheck.Fixup, circonusCheck.Validate, checkActiveToAPIStatus,
      hapi, hact, hper, htim, hpne, htne, hnotgt,
      parseDuration_natString_s, parseDuration_goDurString,
      hm, hf, hcol, hml, hname, hnotes, htags, htgt, hnoport,
      bind, Except.bind, pure, Except.pure]

theorem metric_roundtrip (l : List checkMetricAttrs) :
    (l.map metricParseConfigMap).map (fun m =>
      ({ active := metricAPIStatusToBool m.Status, name := m.Name,
         metricType := m.MetricType } : checkMetricAttrs)) = l := by
  induction l with
  | nil => rfl
  | cons m rest ih =>
    simp only [List.map_cons, ih]
    cases m with
    | mk act nm ty => cases act <;> rfl

theorem metricFilter_roundtrip (l : List checkMetricFilterAttrs) :
    (l.map (fun f => [f.filterType, f.regex] ++ ["tags", f.tagQuery] ++ [f.comment])).map
      (fun m =>
        if m.getD 2 "" = "tags" then
          ({ filterType := m.getD 0 "", regex := m.getD 1 "",
             tagQuery := m.getD 3 "", comment := m.getD 4 "" } : checkMetricFilterAttrs)
        else
          { filterType := m.getD 0 "", regex := m.getD 1 "",
            tagQuery := "", comment := m.getD 2 "" }) = l := by
  induction l with
  | nil => rfl
  | cons f rest ih =>
    simp only [List.map_cons, ih]
    rfl

theorem metric_roundtrip_comp (l : List checkMetricAttrs) :
    List.map ((fun m =>
      ({ active := metricAPIStatusToBool m.Status, name := m.Name,
         metricType := m.MetricType } : checkMetricAttrs)) ∘ metricParseConfigMap) l = l := by
  induction l with
  | nil => rfl
  | cons m rest ih =>
    simp only [List.map_cons, ih]
    cases m with
    | mk mact mnm mty => cases mact <;> rfl

theorem metricFilter_roundtrip_comp (l : List checkMetricFilterAttrs) :
    List.map ((fun (m : List String) =>
        if (m[2]?).getD "" = "tags" then
          ({ filterType := (m[0]?).getD "", regex := (m[1]?).getD "",
             tagQuery := (m[3]?).getD "",
             comment := (m[4]?).getD "" } : checkMetricFilterAttrs)
        else
          { filterType := (m[0]?).getD "", regex := (m[1]?).getD "",
            tagQuery := "", comment := (m[2]?).getD "" })
      ∘ (fun f => [f.filterType, f.regex, "tags", f.tagQuery, f.comment])) l = l := by
  induction l with
  | nil => rfl
  | cons f rest ih =>
    simp only [List.map_cons, ih]
    rfl

/-- C1 (amended): the round-trip law as the code actually satisfies it.
The original claim — the round trip reproduces every canonical attribute of
*every* valid bag, modulo only the documented normalizations — is false:
`check_config_roundtrip_port_counterexample` exhibits a valid bag (a URL
host carrying a port) on which `circonusCheck.ParseConfig` succeeds but
`checkRead` fails with the PROVIDER BUG leftover-`port`-key error.  The law
holds on `CanonicalCheckAttrs` bags: attributes in the normalization-stable
representation *and* outside the three failure modes (empty target, ported
URL host, empty header name).  For those, `circonusCheck.ParseConfig`
succeeds and `checkRead` on the produced bundle — dispatching through
`parseCheckTypeConfig` to `checkAPIToStateHTTP` — reproduces every
attribute of the original bag exactly. -/
theorem check_config_roundtrip (a : checkAttrs) (h : CanonicalCheckAttrs a) :
    ∃ c, circonusCheck.ParseConfig a = .ok c ∧ checkRead c = .ok a := by
  obtain ⟨hact, ⟨p, t, hper, htim, htp⟩, hxor, htgt, hhead, hnoport⟩ := h
  refine ⟨parsedCheckOf a p t,
    parseConfig_canonical a p t hact hper htim htp hxor htgt hnoport, ?_⟩
  have hread := checkAPIToStateHTTP_roundtrip a.http hhead (parsedCheckOf a p t) rfl
  have hptc : parseCheckTypeConfig (parsedCheckOf a p t) = .ok a.http := by
    rw [parseCheckTypeConfig,
      if_pos (show (parsedCheckOf a p t).CheckType = "http" from rfl), hread]
  obtain ⟨act, col, ml, nm, no, per, met, mf, tg, tgt, tout, ht⟩ := a
  by_cases hn : no = "" <;>
    simp_all [checkRead, hptc, parsedCheckOf, checkAPIStatusToBool,
      metric_roundtrip_comp, metricFilter_roundtrip_comp]

/-- Witness for C1: the spec's own example bag (`period="60s"`,
`timeout="30s"`) is canonical, parses, and reads back to itself. -/
theorem check_config_roundtrip_witness :
    ∃ c, circonusCheck.ParseConfig exampleCheck60_30 = .ok c
      ∧ checkRead c = .ok exampleCheck60_30 :=
  check_config_roundtrip exampleCheck60_30
    ⟨by decide, ⟨60, 30, by decide, by decide, by decide⟩,
      Or.inl ⟨by decide, by decide⟩, by decide, by decide, by decide⟩

/-- C1 (counterexample): the round trip errors on a valid input the claim
covers.  `portedCheck` differs from the spec's passing example only in its
URL's port.  `circonusCheck.ParseConfig` succeeds — the bag satisfies every
validation rule — yet reading the produced bundle back fails with the
PROVIDER BUG "API Config not empty" error: `checkConfigToAPIHTTP` wrote the
`port` config key and `checkAPIToStateHTTP` never consumes it.  An error is
not a documented normalization, so the original round-trip claim is false. -/
theorem check_config_roundtrip_port_counterexample :
    (circonusCheck.ParseConfig portedCheck).isOk = true
    ∧ (circonusCheck.ParseConfig portedCheck).bind checkRead
        = .error (.unableToParseAPIConfig "http" .providerBugConfigNotEmpty) := by
  decide
